import Mathlib

/-!
Order lifecycle and stock workflow of the book shop backend.

Shallow embedding of `backend/models/Order.js` and
`backend/controllers/orderController.js`.

Modelling conventions
* JavaScript numbers that carry money are exact rationals (`ℚ`); stock is an
  integer (`$inc` adds a signed amount), requested quantities are naturals.
* The stored `orderStatus` is a string, as in the schema; a theorem that needs it
  to be one of the seven `enum` values says so (`orderStatusValues`).
* MongoDB object ids are natural numbers; the `books` collection is a finite map
  from id to record, the `orders` collection is a list of documents.
* `new Date()` / `Date.now()` is the parameter `now` (milliseconds).
* A request handler is a function from the database to a response and the
  database it leaves behind.  Errors handed to `next(...)` or thrown inside
  `catchAsync` are the `Except.error` responses.
* What the schema of `Order.js` declares is part of the model: `Order.validate` is
  the validation Mongoose runs at the start of a save, before the `pre('save')`
  hooks (`required`, `enum`, `min`, `max`, `maxlength`), and `jsTrim` is the `trim`
  setter. `save` itself is the two `pre('save')` hooks followed by the write;
  `saveValidated` is validation followed by `save`. `Order.create` and
  `processRefund` go through `saveValidated`. The instance methods `updateStatus`,
  `cancel` and `addTracking` are modelled on documents for which that save
  succeeds, and call `save`.
* Money is modelled by exact rationals where the code computes with IEEE doubles;
  the concrete amounts used in evaluations are exact in both.
* Stored documents have distinct `_id`s, as MongoDB guarantees; a theorem about the
  order stored under an id says so (`Nodup` of the ids).
-/

namespace BookShop

/-! ## Data model -/

/-- Catalog record (`models/Book.js`), with the fields the order workflow touches. -/
structure Book where
  _id : Nat
  title : String
  author : String
  price : ℚ
  stock : Int
  isActive : Bool
  image : Option String
deriving DecidableEq

/-- Embedded line item (`orderItemSchema`). -/
structure OrderItem where
  book : Nat
  title : String
  author : String
  price : ℚ
  quantity : Nat
  image : Option String
deriving DecidableEq

/-- Embedded address (`shippingAddressSchema`). -/
structure ShippingAddress where
  name : String
  street : String
  city : String
  state : String
  zipCode : String
  country : String
  phone : Option String
deriving DecidableEq

/-- Order document (`orderSchema`). -/
structure Order where
  _id : Nat
  orderNumber : Option String
  user : Nat
  items : List OrderItem
  shippingAddress : ShippingAddress
  paymentMethod : String
  paymentStatus : String
  orderStatus : String
  subtotal : ℚ
  shippingCost : ℚ
  tax : ℚ
  discount : ℚ
  total : ℚ
  currency : String
  notes : Option String
  trackingNumber : Option String
  trackingUrl : Option String
  estimatedDelivery : Option Nat
  deliveredAt : Option Nat
  cancelledAt : Option Nat
  cancellationReason : Option String
  refundAmount : ℚ
  refundReason : Option String
  refundedAt : Option Nat
  isGift : Bool
  giftMessage : Option String
  isGiftWrapped : Bool
  giftWrapCost : ℚ
deriving DecidableEq

/-- The `enum` of `orderStatus` in `orderSchema`. -/
def orderStatusValues : List String :=
  ["pending", "confirmed", "processing", "shipped", "delivered", "cancelled", "returned"]

/-- Database: the `books` and `orders` collections. -/
structure Db where
  books : Nat → Option Book
  orders : List Order

/-- Authenticated caller (`req.user`). -/
structure User where
  id : Nat
  role : String
deriving DecidableEq

/-- Errors of the order workflow, one constructor per `new AppError` / `throw` site. -/
inductive OrderError where
  /-- Response `AppError('Order must contain at least one item', 400)` -/
  | emptyOrder
  /-- Response `AppError('Book with ID .. not found', 404)` -/
  | bookNotFound (book : Nat)
  /-- Response `AppError('Insufficient stock for <title>. Available: <stock>', 400)` -/
  | insufficientStock (title : String) (available : Int)
  /-- Response `AppError('No order found with that ID', 404)` -/
  | orderNotFound
  /-- Response `AppError('Order cannot be cancelled in its current status', 400)`, controller guard -/
  | notCancellable
  /-- Response `AppError('Refund amount cannot exceed order total', 400)` -/
  | refundExceedsTotal
  /-- Exception `Error('Invalid status transition from .. to ..')`, thrown by `updateStatus` -/
  | invalidTransition (current requested : String)
  /-- Exception `Error('Order cannot be cancelled in its current status')`, thrown by `cancel` -/
  | cannotBeCancelled
  /-- Exception `Error('Can only add tracking to shipped orders')`, thrown by `addTracking` -/
  | trackingNotShipped
  /-- Exception `TypeError` of reading `.includes` on a missing table row -/
  | typeError
  /-- Exception `ValidationError` with which a save rejects a document the schema refuses -/
  | validationError
deriving DecidableEq

/-! ## `models/Order.js` -/

/-- The `enum` of `paymentMethod` in `orderSchema`. -/
def paymentMethodValues : List String :=
  ["credit_card", "debit_card", "paypal", "stripe", "cash_on_delivery"]

/-- The `enum` of `paymentStatus` in `orderSchema`. -/
def paymentStatusValues : List String :=
  ["pending", "paid", "failed", "refunded", "partially_refunded"]

/-- JavaScript white space and line terminators, the characters `String.prototype.trim`
removes. -/
def isJsWhitespace (c : Char) : Bool :=
  [0x09, 0x0A, 0x0B, 0x0C, 0x0D, 0x20, 0xA0, 0x1680, 0x2000, 0x2001, 0x2002, 0x2003, 0x2004,
   0x2005, 0x2006, 0x2007, 0x2008, 0x2009, 0x200A, 0x2028, 0x2029, 0x202F, 0x205F, 0x3000,
   0xFEFF].contains c.toNat

/-- JavaScript `String.prototype.trim`, the setter of a schema path with `trim: true`. -/
def jsTrim (s : String) : String :=
  String.mk ((s.data.dropWhile isJsWhitespace).reverse.dropWhile isJsWhitespace).reverse

/-- Validators of `orderItemSchema`: `title` and `author` required, `price` at least 0,
`quantity` between 1 and 100. -/
def OrderItem.validate (i : OrderItem) : Bool :=
  i.title != "" && i.author != "" && decide (0 ≤ i.price) && decide (1 ≤ i.quantity) &&
    decide (i.quantity ≤ 100)

/-- Validators of `shippingAddressSchema`: the six required strings. -/
def ShippingAddress.validate (a : ShippingAddress) : Bool :=
  a.name != "" && a.street != "" && a.city != "" && a.state != "" && a.zipCode != "" &&
    a.country != ""

/-- Schema validation of an order document, which Mongoose runs at the start of `save()`,
before the `pre('save')` hooks: `required`, `enum`, `min`, `max` and `maxlength` of
`orderSchema` (string lengths counted in characters). -/
def Order.validate (o : Order) : Bool :=
  (o.orderNumber != none && o.orderNumber != some "") &&
    o.items.all OrderItem.validate && o.shippingAddress.validate &&
    paymentMethodValues.contains o.paymentMethod &&
    paymentStatusValues.contains o.paymentStatus &&
    orderStatusValues.contains o.orderStatus &&
    decide (0 ≤ o.subtotal) && decide (0 ≤ o.shippingCost) && decide (0 ≤ o.tax) &&
    decide (0 ≤ o.discount) && decide (0 ≤ o.total) &&
    decide ((o.notes.getD "").length ≤ 500) && decide (0 ≤ o.refundAmount) &&
    decide ((o.giftMessage.getD "").length ≤ 200) && decide (0 ≤ o.giftWrapCost)

/-- JavaScript `String.prototype.padStart` with a one-character filler. -/
def padStart (s : String) (targetLength : Nat) (padChar : Char) : String :=
  String.mk (List.replicate (targetLength - s.length) padChar) ++ s

/-- First `pre('save')` hook: generate the order number of a new document. -/
def preSaveOrderNumber (o : Order) (isNew : Bool) (count now : Nat) : Order :=
  if isNew && (o.orderNumber == none || o.orderNumber == some "") then
    let orderNumber := "ORD-" ++ toString now ++ "-" ++ padStart (toString (count + 1)) 4 '0'
    { o with orderNumber := some orderNumber }
  else o

/-- The `reduce` of the second hook: sum of `price * quantity`, from 0. -/
def itemsSubtotal (items : List OrderItem) : ℚ :=
  items.foldl (fun total item => total + item.price * item.quantity) 0

/-- Second `pre('save')` hook: recompute `subtotal` and `total`. -/
def preSaveTotals (o : Order) : Order :=
  let subtotal := itemsSubtotal o.items
  let total := subtotal + o.shippingCost + o.tax - o.discount
  { o with subtotal := subtotal, total := if total < 0 then 0 else total }

/-- Write a document into the `orders` collection: insert when new, else replace by id. -/
def Db.putOrder (db : Db) (o : Order) (isNew : Bool) : Db :=
  if isNew then { db with orders := db.orders ++ [o] }
  else { db with orders := db.orders.map (fun x => if x._id = o._id then o else x) }

/-- The call `doc.save()`: both hooks, then the write. `countDocuments()` is the collection size. -/
def save (db : Db) (o : Order) (isNew : Bool) (now : Nat) : Order × Db :=
  let o1 := preSaveOrderNumber o isNew db.orders.length now
  let o2 := preSaveTotals o1
  (o2, db.putOrder o2 isNew)

/-- The call `doc.save()` with its validation: a document the schema refuses is rejected with a
`ValidationError` before any hook runs and nothing is written. -/
def saveValidated (db : Db) (o : Order) (isNew : Bool) (now : Nat) :
    Except OrderError (Order × Db) :=
  if o.validate then .ok (save db o isNew now) else .error .validationError

/-- Virtual `canBeCancelled`. -/
def Order.canBeCancelled (o : Order) : Bool :=
  ["pending", "confirmed", "processing"].contains o.orderStatus

/-- Virtual `canBeReturned`, read at time `now`; a stored `deliveredAt` date is truthy and the
elapsed time is the signed difference `now - deliveredAt` in milliseconds. -/
def Order.canBeReturned (o : Order) (now : Nat) : Bool :=
  o.orderStatus == "delivered" &&
    match o.deliveredAt with
    | none => false
    | some deliveredAt =>
      decide ((now : Int) - (deliveredAt : Int) ≤ 30 * 24 * 60 * 60 * 1000)

/-- The table `validTransitions` of `updateStatus`; `none` is a missing key. -/
def validTransitions (status : String) : Option (List String) :=
  if status = "pending" then some ["confirmed", "cancelled"]
  else if status = "confirmed" then some ["processing", "cancelled"]
  else if status = "processing" then some ["shipped", "cancelled"]
  else if status = "shipped" then some ["delivered", "cancelled"]
  else if status = "delivered" then some ["returned"]
  else if status = "cancelled" then some []
  else if status = "returned" then some []
  else none

/-- Instance method `updateStatus(newStatus, notes = '')`. -/
def Order.updateStatus (o : Order) (db : Db) (newStatus : String) (notes : String) (now : Nat) :
    Except OrderError (Order × Db) :=
  match validTransitions o.orderStatus with
  | none => .error .typeError
  | some allowed =>
    if !allowed.contains newStatus then
      .error (.invalidTransition o.orderStatus newStatus)
    else
      let o1 := { o with orderStatus := newStatus }
      let o2 :=
        if newStatus = "delivered" then { o1 with deliveredAt := some now }
        else if newStatus = "cancelled" then { o1 with cancelledAt := some now }
        else o1
      let o3 := if notes ≠ "" then { o2 with notes := some notes } else o2
      .ok (save db o3 false now)

/-- Instance method `cancel(reason = '')`. -/
def Order.cancel (o : Order) (db : Db) (reason : String) (now : Nat) :
    Except OrderError (Order × Db) :=
  if !o.canBeCancelled then .error .cannotBeCancelled
  else
    .ok (save db { o with orderStatus := "cancelled", cancelledAt := some now,
                          cancellationReason := some reason } false now)

/-- Instance method `addTracking(trackingNumber, trackingUrl = '')`; both paths are declared
with `trim: true`, so the assignments store the trimmed strings. -/
def Order.addTracking (o : Order) (db : Db) (trackingNumber trackingUrl : String) (now : Nat) :
    Except OrderError (Order × Db) :=
  if o.orderStatus ≠ "shipped" then .error .trackingNotShipped
  else
    .ok (save db { o with trackingNumber := some (jsTrim trackingNumber),
                          trackingUrl := some (jsTrim trackingUrl) } false now)

/-! ## `controllers/orderController.js` -/

/-- One element of `req.body.items`. -/
structure OrderItemRequest where
  book : Nat
  quantity : Nat
deriving DecidableEq

/-- Body of `POST /api/orders`; an `Option` field may be absent from the JSON. -/
structure CreateOrderRequest where
  items : Option (List OrderItemRequest)
  shippingAddress : ShippingAddress
  paymentMethod : String
  notes : Option String
  isGift : Option Bool
  giftMessage : Option String
  isGiftWrapped : Option Bool
  giftWrapCost : Option ℚ

/-- The call `Book.findById(id)`. -/
def Db.findBook (db : Db) (id : Nat) : Option Book :=
  db.books id

/-- The call `Book.findByIdAndUpdate(id, ..)` with `$inc` of `stock` by `delta`; no effect on a missing id. -/
def Db.incStock (db : Db) (id : Nat) (delta : Int) : Db :=
  { db with books := fun i =>
      if i = id then (db.books i).map (fun b => { b with stock := b.stock + delta })
      else db.books i }

/-- First loop of `createOrder`: stock check, running subtotal and line snapshots. -/
def checkItems (db : Db) :
    List OrderItemRequest → ℚ → List OrderItem → Except OrderError (ℚ × List OrderItem)
  | [], subtotal, orderItems => .ok (subtotal, orderItems)
  | item :: rest, subtotal, orderItems =>
    match db.findBook item.book with
    | none => .error (.bookNotFound item.book)
    | some book =>
      if !book.isActive then .error (.bookNotFound item.book)
      else if book.stock < item.quantity then
        .error (.insufficientStock book.title book.stock)
      else
        let itemTotal := book.price * item.quantity
        checkItems db rest (subtotal + itemTotal)
          (orderItems ++ [{ book := book._id, title := book.title, author := book.author,
                            price := book.price, quantity := item.quantity,
                            image := book.image }])

/-- Second loop of `createOrder`: decrement the stock of every requested line. -/
def decrementStock (db : Db) (items : List OrderItemRequest) : Db :=
  items.foldl (fun d item => d.incStock item.book (-(item.quantity : Int))) db

/-- Loop of `cancelOrder`: give back the stock of every line of the order. -/
def restoreStock (db : Db) (items : List OrderItem) : Db :=
  items.foldl (fun d item => d.incStock item.book (item.quantity : Int)) db

/-- The `trim: true` setters of `shippingAddressSchema`. -/
def ShippingAddress.trimmed (a : ShippingAddress) : ShippingAddress :=
  { name := jsTrim a.name, street := jsTrim a.street, city := jsTrim a.city,
    state := jsTrim a.state, zipCode := jsTrim a.zipCode, country := jsTrim a.country,
    phone := a.phone.map jsTrim }

/-- The document `new Order(fields)`: the fields given, schema defaults for the others. -/
def Order.new (db : Db) (user : Nat) (items : List OrderItem)
    (shippingAddress : ShippingAddress) (paymentMethod : String)
    (subtotal shippingCost tax total : ℚ) (notes : Option String) (isGift : Option Bool)
    (giftMessage : Option String) (isGiftWrapped : Option Bool) (giftWrapCost : ℚ) : Order :=
  { _id := db.orders.length, orderNumber := none, user := user, items := items,
    shippingAddress := shippingAddress.trimmed, paymentMethod := paymentMethod,
    paymentStatus := "pending", orderStatus := "pending", subtotal := subtotal,
    shippingCost := shippingCost, tax := tax, discount := 0, total := total,
    currency := "USD", notes := notes, trackingNumber := none, trackingUrl := none,
    estimatedDelivery := none, deliveredAt := none, cancelledAt := none,
    cancellationReason := none, refundAmount := 0, refundReason := none,
    refundedAt := none, isGift := isGift.getD false, giftMessage := giftMessage,
    isGiftWrapped := isGiftWrapped.getD false, giftWrapCost := giftWrapCost }

/-- The call `Order.create(fields)` on the document built from the fields: a validated save of
a new document. -/
def Order.create (db : Db) (doc : Order) (now : Nat) : Except OrderError (Order × Db) :=
  saveValidated db doc true now

/-- Shipping cost computed by `createOrder` (line 56): free above 50, else 9.99. -/
def createOrderShipping (subtotal : ℚ) : ℚ :=
  if subtotal > 50 then 0 else 9.99

/-- Tax computed by `createOrder` (line 59): 8% of the subtotal. -/
def createOrderTax (subtotal : ℚ) : ℚ :=
  subtotal * 0.08

/-- Total computed by `createOrder` before it calls `Order.create` (line 62). -/
def createOrderTotal (subtotal shippingCost tax : ℚ) (giftWrapCost : Option ℚ) : ℚ :=
  subtotal + shippingCost + tax + giftWrapCost.getD 0

/-- Document that `createOrder` hands to `Order.create` (lines 55-79), from the subtotal and
the line snapshots of its first loop; no `orderNumber` is passed. -/
def createOrderDocument (db : Db) (user : User) (req : CreateOrderRequest) (subtotal : ℚ)
    (orderItems : List OrderItem) : Order :=
  Order.new db user.id orderItems req.shippingAddress req.paymentMethod subtotal
    (createOrderShipping subtotal) (createOrderTax subtotal)
    (createOrderTotal subtotal (createOrderShipping subtotal) (createOrderTax subtotal)
      req.giftWrapCost)
    req.notes req.isGift req.giftMessage req.isGiftWrapped (req.giftWrapCost.getD 0)

/-- Handler `createOrder`: a rejection by `Order.create` is thrown before the stock loop. -/
def createOrder (db : Db) (user : User) (req : CreateOrderRequest) (now : Nat) :
    Except OrderError Order × Db :=
  match req.items with
  | none => (.error .emptyOrder, db)
  | some items =>
    if items.length = 0 then (.error .emptyOrder, db)
    else
      match checkItems db items 0 [] with
      | .error e => (.error e, db)
      | .ok (subtotal, orderItems) =>
        match Order.create db (createOrderDocument db user req subtotal orderItems) now with
        | .error e => (.error e, db)
        | .ok (order, db1) => (.ok order, decrementStock db1 items)

/-- The call `Order.findById(id)`. -/
def Db.findOrderById (db : Db) (id : Nat) : Option Order :=
  db.orders.find? (fun o => o._id == id)

/-- Handler `updateOrderStatus`; `notes`, `trackingNumber`, `trackingUrl` may be absent. -/
def updateOrderStatus (db : Db) (orderId : Nat) (status : String) (notes : Option String)
    (trackingNumber trackingUrl : Option String) (now : Nat) : Except OrderError Order × Db :=
  match db.findOrderById orderId with
  | none => (.error .orderNotFound, db)
  | some order =>
    match order.updateStatus db status (notes.getD "") now with
    | .error e => (.error e, db)
    | .ok (order1, db1) =>
      if (trackingNumber.getD "") ≠ "" && status = "shipped" then
        match order1.addTracking db1 (trackingNumber.getD "") (trackingUrl.getD "") now with
        | .error e => (.error e, db1)
        | .ok (order2, db2) => (.ok order2, db2)
      else (.ok order1, db1)

/-- Query of `cancelOrder`: by id, and by owner unless the caller is an admin. -/
def Db.findOrderFor (db : Db) (user : User) (id : Nat) : Option Order :=
  db.orders.find? (fun o => o._id == id && (user.role == "admin" || o.user == user.id))

/-- Handler `cancelOrder`. -/
def cancelOrder (db : Db) (user : User) (orderId : Nat) (reason : Option String) (now : Nat) :
    Except OrderError Order × Db :=
  match db.findOrderFor user orderId with
  | none => (.error .orderNotFound, db)
  | some order =>
    if !order.canBeCancelled then (.error .notCancellable, db)
    else
      match order.cancel db (reason.getD "") now with
      | .error e => (.error e, db)
      | .ok (order1, db1) => (.ok order1, restoreStock db1 order1.items)

/-- The four assignments of `processRefund` (lines 364-368) on the order it loaded. -/
def refundDocument (order : Order) (refundAmount : ℚ) (reason : Option String) (now : Nat) :
    Order :=
  { order with refundAmount := refundAmount, refundReason := reason, refundedAt := some now,
               paymentStatus :=
                 if refundAmount = order.total then "refunded" else "partially_refunded" }

/-- Handler `processRefund`; its `order.save()` is a validated save, so a refund the schema
refuses (a negative amount) is rejected and nothing is written. -/
def processRefund (db : Db) (orderId : Nat) (refundAmount : ℚ) (reason : Option String)
    (now : Nat) : Except OrderError Order × Db :=
  match db.findOrderById orderId with
  | none => (.error .orderNotFound, db)
  | some order =>
    if refundAmount > order.total then (.error .refundExceedsTotal, db)
    else
      match saveValidated db (refundDocument order refundAmount reason now) false now with
      | .error e => (.error e, db)
      | .ok (order1, db1) => (.ok order1, db1)

/-! ## Specification-side definitions and sample data -/

/-- Sum over all line items of price times quantity, as the specification words the subtotal. -/
def specLineSum (items : List OrderItem) : ℚ :=
  (items.map (fun i => i.price * (i.quantity : ℚ))).sum

/-- Sum of the requested quantities of the request lines that reference catalog item `id`. -/
def requestedQuantity (items : List OrderItemRequest) (id : Nat) : Int :=
  ((items.filter (fun l => l.book = id)).map (fun l => (l.quantity : Int))).sum

/-- Sum of the quantities of the order lines that reference catalog item `id`. -/
def orderedQuantity (items : List OrderItem) (id : Nat) : Int :=
  ((items.filter (fun l => l.book = id)).map (fun l => (l.quantity : Int))).sum

/-- A request line passes both checks of `createOrder`: item present, active, enough stock. -/
def lineAccepted (db : Db) (l : OrderItemRequest) : Prop :=
  ∃ b, db.books l.book = some b ∧ b.isActive = true ∧ (l.quantity : Int) ≤ b.stock

/-- Sample address. -/
def sampleAddress : ShippingAddress :=
  ⟨"Ann Lee", "12 Main Street", "Springfield", "IL", "62701", "United States", none⟩

/-- Sample catalog item: id 1, price 10.00, stock 3, active. -/
def sampleBook : Book :=
  { _id := 1, title := "Atlas", author := "A. Writer", price := 10, stock := 3,
    isActive := true, image := none }

/-- Sample order of 2 units of item 1 in the given status, owned by user 7. -/
def sampleOrder (status : String) : Order :=
  { _id := 0, orderNumber := some "ORD-1-0001", user := 7,
    items := [{ book := 1, title := "Atlas", author := "A. Writer", price := 10,
                quantity := 2, image := none }],
    shippingAddress := sampleAddress, paymentMethod := "paypal", paymentStatus := "pending",
    orderStatus := status, subtotal := 20, shippingCost := 9.99, tax := 1.6, discount := 0,
    total := 31.59, currency := "USD", notes := none, trackingNumber := none,
    trackingUrl := none, estimatedDelivery := none, deliveredAt := none, cancelledAt := none,
    cancellationReason := none, refundAmount := 0, refundReason := none, refundedAt := none,
    isGift := false, giftMessage := none, isGiftWrapped := false, giftWrapCost := 0 }

/-- Sample database: item 1 in the catalog, no orders. -/
def sampleDb : Db :=
  { books := fun i => if i = 1 then some sampleBook else none, orders := [] }

/-- Sample database: item 1 with the given stock, no orders. -/
def sampleDbStock (stock : Int) : Db :=
  { books := fun i => if i = 1 then some { sampleBook with stock := stock } else none,
    orders := [] }

/-- Sample database holding `sampleOrder status` (item 1 has stock 3). -/
def sampleDbWith (status : String) : Db :=
  { books := fun i => if i = 1 then some sampleBook else none, orders := [sampleOrder status] }

/-- Sample caller: customer 7. -/
def sampleUser : User := ⟨7, "customer"⟩

/-- Sample request with the given lines and gift-wrap cost. -/
def sampleRequest (items : Option (List OrderItemRequest)) (giftWrapCost : Option ℚ) :
    CreateOrderRequest :=
  { items := items, shippingAddress := sampleAddress, paymentMethod := "paypal",
    notes := none, isGift := none, giftMessage := none, isGiftWrapped := none,
    giftWrapCost := giftWrapCost }

/-- Sum over the request lines of catalog price times requested quantity, the `S` of the
specification's totals. -/
def specRequestSum (db : Db) (items : List OrderItemRequest) : ℚ :=
  (items.map (fun l => ((db.books l.book).map (fun b => b.price)).getD 0 * (l.quantity : ℚ))).sum

/-- Line `it` is the snapshot of request line `l`: the catalog record read for `l.book` gives
id, title, author, price and image, and the quantity is the requested one. -/
def isSnapshotOf (db : Db) (l : OrderItemRequest) (it : OrderItem) : Prop :=
  ∃ b, db.books l.book = some b ∧
    it = { book := b._id, title := b.title, author := b.author, price := b.price,
           quantity := l.quantity, image := b.image }

/-- Sample catalog: item 1 (10.00, stock 3), item 2 (5.00, stock 10), item 3 (30.00, stock 10). -/
def sampleCatalog : Db :=
  { books := fun i =>
      if i = 1 then some sampleBook
      else if i = 2 then
        some { _id := 2, title := "Pencil", author := "B. Maker", price := 5, stock := 10,
               isActive := true, image := none }
      else if i = 3 then
        some { _id := 3, title := "Globe", author := "C. Maker", price := 30, stock := 10,
               isActive := true, image := none }
      else none,
    orders := [] }

/-- One lifecycle request against a stored order, for statements about sequences of calls. -/
inductive OrderOp where
  /-- Request `PATCH /:id/status` (`updateOrderStatus`, which calls `updateStatus`). -/
  | updateStatus (orderId : Nat) (status : String) (notes trackingNumber trackingUrl : Option String)
  /-- Request `PATCH /:id/cancel` (`cancelOrder`, which calls `cancel`). -/
  | cancel (user : User) (orderId : Nat) (reason : Option String)
  /-- Method call `addTracking` on the stored order with the given id. -/
  | addTracking (orderId : Nat) (trackingNumber trackingUrl : String)
  /-- Request `PATCH /:id/refund` (`processRefund`). -/
  | refund (orderId : Nat) (refundAmount : ℚ) (reason : Option String)

/-- Database left by one lifecycle request made at time `now`. -/
def applyOp (db : Db) (now : Nat) : OrderOp → Db
  | .updateStatus orderId status notes trackingNumber trackingUrl =>
    (updateOrderStatus db orderId status notes trackingNumber trackingUrl now).2
  | .cancel user orderId reason => (cancelOrder db user orderId reason now).2
  | .addTracking orderId trackingNumber trackingUrl =>
    match db.findOrderById orderId with
    | none => db
    | some order =>
      match order.addTracking db trackingNumber trackingUrl now with
      | .error _ => db
      | .ok (_, db1) => db1
  | .refund orderId refundAmount reason => (processRefund db orderId refundAmount reason now).2

/-- Database left by a sequence of lifecycle requests, each made at its own time. -/
def runOps (db : Db) (ops : List (Nat × OrderOp)) : Db :=
  ops.foldl (fun d op => applyOp d op.1 op.2) db


/-- Responses and final database of `createOrder` calls handled one after another. -/
def runCreates (db : Db) :
    List (User × CreateOrderRequest × Nat) → List (Except OrderError Order) × Db
  | [] => ([], db)
  | (user, req, now) :: rest =>
    let (r, db1) := createOrder db user req now
    let (rs, db2) := runCreates db1 rest
    (r :: rs, db2)

/-- Statuses visited by successive `updateStatus` calls on one order, each call on the order
the previous call returned; `none` when one of the calls is rejected. -/
def statusTrace (o : Order) (db : Db) : List (String × String × Nat) → Option (List String)
  | [] => some [o.orderStatus]
  | (newStatus, notes, now) :: rest =>
    match o.updateStatus db newStatus notes now with
    | .error _ => none
    | .ok (o1, db1) => (statusTrace o1 db1 rest).map (fun trace => o.orderStatus :: trace)

/-- Position of a status along the lifecycle, used to measure progress of transitions. -/
def statusRank (status : String) : Nat :=
  if status = "pending" then 0
  else if status = "confirmed" then 1
  else if status = "processing" then 2
  else if status = "shipped" then 3
  else if status = "delivered" then 4
  else 5

/-- Sample stored order with gift wrap: 2 units of item 1 at 10.00, shipping 10.00, tax 2.00,
gift wrap 5.00, and the total 37.00 that includes the gift wrap. -/
def sampleGiftOrder : Order :=
  { sampleOrder "pending" with shippingCost := 10, tax := 2, isGiftWrapped := true,
                               giftWrapCost := 5, total := 37 }

/-- Sample database holding `sampleGiftOrder` (item 1 has stock 3). -/
def sampleGiftDb : Db :=
  { books := fun i => if i = 1 then some sampleBook else none, orders := [sampleGiftOrder] }

/-- One request that can touch catalog stock, for statements about sequences of calls. -/
inductive ShopRequest where
  /-- Request `POST /` (`createOrder`). -/
  | create (user : User) (req : CreateOrderRequest)
  /-- Request `PATCH /:id/cancel` (`cancelOrder`). -/
  | cancel (user : User) (orderId : Nat) (reason : Option String)
  /-- Request `PATCH /:id/status` (`updateOrderStatus`). -/
  | updateStatus (orderId : Nat) (status : String) (notes trackingNumber trackingUrl : Option String)

/-- Database left by one request made at time `now`. -/
def applyRequest (db : Db) (now : Nat) : ShopRequest → Db
  | .create user req => (createOrder db user req now).2
  | .cancel user orderId reason => (cancelOrder db user orderId reason now).2
  | .updateStatus orderId status notes trackingNumber trackingUrl =>
    (updateOrderStatus db orderId status notes trackingNumber trackingUrl now).2

/-- Database left by a sequence of requests handled one at a time, each at its own time. -/
def runRequests (db : Db) (reqs : List (Nat × ShopRequest)) : Db :=
  reqs.foldl (fun d r => applyRequest d r.1 r.2) db

/-! ## Auxiliary lemmas -/

theorem foldl_lineTotal (items : List OrderItem) (init : ℚ) :
    items.foldl (fun (total : ℚ) (item : OrderItem) => total + item.price * (item.quantity : ℚ))
      init = init + specLineSum items := by
  induction items generalizing init with
  | nil => simp [specLineSum]
  | cons x xs ih =>
    rw [List.foldl_cons, ih]
    simp only [specLineSum, List.map_cons, List.sum_cons]
    ring

theorem itemsSubtotal_eq (items : List OrderItem) : itemsSubtotal items = specLineSum items := by
  simp [itemsSubtotal, foldl_lineTotal]

theorem save_fst_items (db : Db) (o : Order) (isNew : Bool) (now : Nat) :
    (save db o isNew now).1.items = o.items := by
  simp only [save, preSaveTotals, preSaveOrderNumber]
  split <;> rfl

theorem save_fst_subtotal (db : Db) (o : Order) (isNew : Bool) (now : Nat) :
    (save db o isNew now).1.subtotal = specLineSum o.items := by
  have h := save_fst_items db o isNew now
  simp only [save, preSaveTotals] at h ⊢
  rw [itemsSubtotal_eq, h]

theorem save_snd_books (db : Db) (o : Order) (isNew : Bool) (now : Nat) :
    (save db o isNew now).2.books = db.books := by
  simp only [save, Db.putOrder]
  split <;> rfl

theorem subtotal_of_save_eq {db db' : Db} {o o' : Order} {isNew : Bool} {now : Nat}
    (h : save db o isNew now = (o', db')) : o'.subtotal = specLineSum o'.items := by
  have e : (save db o isNew now).1 = o' := by rw [h]
  subst e
  rw [save_fst_subtotal, save_fst_items]

theorem incStock_orders (db : Db) (id : Nat) (delta : Int) :
    (db.incStock id delta).orders = db.orders := rfl

theorem restoreStock_orders (items : List OrderItem) (db : Db) :
    (restoreStock db items).orders = db.orders := by
  induction items generalizing db with
  | nil => rfl
  | cons l ls ih =>
    simp only [restoreStock, List.foldl_cons] at ih ⊢
    rw [ih, incStock_orders]

theorem restoreStock_books (items : List OrderItem) (db : Db) (id : Nat) :
    (restoreStock db items).books id
      = (db.books id).map (fun b => { b with stock := b.stock + orderedQuantity items id }) := by
  induction items generalizing db with
  | nil =>
    cases h : db.books id <;> simp [restoreStock, orderedQuantity, h]
  | cons l ls ih =>
    have ih' := ih (db.incStock l.book (l.quantity : Int))
    simp only [restoreStock, List.foldl_cons] at ih' ⊢
    rw [ih']
    by_cases hid : l.book = id
    · cases h : db.books id <;>
        simp [Db.incStock, orderedQuantity, List.filter_cons, hid, h]
      omega
    · have hid' : ¬ id = l.book := fun e => hid e.symm
      cases h : db.books id <;>
        simp [Db.incStock, orderedQuantity, List.filter_cons, hid, hid', h]

theorem checkItems_append_accepted (db : Db) (pre rest : List OrderItemRequest)
    (hpre : ∀ x ∈ pre, lineAccepted db x) (subtotal : ℚ) (orderItems : List OrderItem) :
    ∃ subtotal' orderItems',
      checkItems db (pre ++ rest) subtotal orderItems
        = checkItems db rest subtotal' orderItems' := by
  induction pre generalizing subtotal orderItems with
  | nil => exact ⟨subtotal, orderItems, rfl⟩
  | cons x xs ih =>
    obtain ⟨b, hb, hact, hq⟩ := hpre x (List.mem_cons_self _ _)
    have hxs : ∀ y ∈ xs, lineAccepted db y := fun y hy => hpre y (List.mem_cons_of_mem _ hy)
    have hlt : ¬ b.stock < (x.quantity : Int) := not_lt.mpr hq
    simp only [List.cons_append, checkItems, Db.findBook, hb, hact, hlt]
    exact ih hxs _ _

theorem checkItems_ok_of_accepted (db : Db) (items : List OrderItemRequest)
    (hall : ∀ x ∈ items, lineAccepted db x) (subtotal : ℚ) (orderItems : List OrderItem) :
    ∃ r, checkItems db items subtotal orderItems = .ok r := by
  obtain ⟨s', a', h⟩ := checkItems_append_accepted db items [] hall subtotal orderItems
  rw [List.append_nil] at h
  exact ⟨(s', a'), by rw [h, checkItems]⟩

theorem save_notNew (db : Db) (o : Order) (now : Nat) :
    save db o false now = (preSaveTotals o, db.putOrder (preSaveTotals o) false) := by
  simp [save, preSaveOrderNumber]

theorem cancel_ok_iff (o : Order) (db : Db) (reason : String) (now : Nat) :
    (∃ r, o.cancel db reason now = .ok r) ↔
      o.orderStatus ∈ ["pending", "confirmed", "processing"] := by
  unfold Order.cancel Order.canBeCancelled
  by_cases h : o.orderStatus ∈ ["pending", "confirmed", "processing"]
  · simp [h]
  · simp [h]

theorem cancel_ok_spec (o o1 : Order) (db db1 : Db) (reason : String) (now : Nat)
    (h : o.cancel db reason now = .ok (o1, db1)) :
    o1.orderStatus = "cancelled" ∧ o1.cancelledAt = some now ∧
    o1.cancellationReason = some reason ∧ o1.items = o.items ∧ o1._id = o._id ∧
    db1.books = db.books ∧
    db1.orders = db.orders.map (fun x => if x._id = o1._id then o1 else x) := by
  unfold Order.cancel at h
  split at h
  · simp at h
  · rw [save_notNew] at h
    obtain ⟨rfl, rfl⟩ := Prod.mk.inj (Except.ok.inj h)
    exact ⟨rfl, rfl, rfl, rfl, rfl, rfl, rfl⟩

theorem checkItems_ok_spec (db : Db) (items : List OrderItemRequest) (subtotal : ℚ)
    (acc : List OrderItem) (subtotal' : ℚ) (acc' : List OrderItem)
    (h : checkItems db items subtotal acc = .ok (subtotal', acc')) :
    ∃ lines, acc' = acc ++ lines ∧ List.Forall₂ (isSnapshotOf db) items lines ∧
      subtotal' = subtotal + specLineSum lines := by
  induction items generalizing subtotal acc with
  | nil =>
    simp only [checkItems, Except.ok.injEq, Prod.mk.injEq] at h
    exact ⟨[], by simp [h.2], List.Forall₂.nil, by simp [specLineSum, h.1]⟩
  | cons x xs ih =>
    unfold checkItems at h
    split at h
    · simp at h
    · next b hb =>
      split at h
      · simp at h
      · split at h
        · simp at h
        · obtain ⟨lines, h1, h2, h3⟩ := ih _ _ h
          refine ⟨_ :: lines, ?_, List.Forall₂.cons ⟨b, hb, rfl⟩ h2, ?_⟩
          · rw [h1, List.append_assoc]; rfl
          · rw [h3]
            simp only [specLineSum, List.map_cons, List.sum_cons]
            ring

theorem validate_false_of_no_number (o : Order) (h : o.orderNumber = none) :
    o.validate = false := by
  simp [Order.validate, h]

theorem create_document_rejected (db : Db) (user : User) (req : CreateOrderRequest)
    (subtotal : ℚ) (lines : List OrderItem) (now : Nat) :
    Order.create db (createOrderDocument db user req subtotal lines) now
      = .error .validationError := by
  have hv : (createOrderDocument db user req subtotal lines).validate = false :=
    validate_false_of_no_number _ rfl
  simp [Order.create, saveValidated, hv]

theorem createOrder_cases (db : Db) (user : User) (req : CreateOrderRequest) (now : Nat) :
    createOrder db user req now = (.error .emptyOrder, db) ∨
    (∃ id, createOrder db user req now = (.error (.bookNotFound id), db)) ∨
    (∃ title available,
      createOrder db user req now = (.error (.insufficientStock title available), db)) ∨
    (createOrder db user req now = (.error .validationError, db) ∧
      ∃ items subtotal lines, req.items = some items ∧ items ≠ [] ∧
        checkItems db items 0 [] = .ok (subtotal, lines)) := by
  have hkind : ∀ (items : List OrderItemRequest) (subtotal : ℚ) (acc : List OrderItem)
      (e : OrderError), checkItems db items subtotal acc = .error e →
      (∃ id, e = .bookNotFound id) ∨ ∃ title available, e = .insufficientStock title available := by
    intro items
    induction items with
    | nil => intro subtotal acc e h; simp [checkItems] at h
    | cons x xs ih =>
      intro subtotal acc e h
      unfold checkItems at h
      split at h
      · exact Or.inl ⟨_, (Except.error.inj h).symm⟩
      · split at h
        · exact Or.inl ⟨_, (Except.error.inj h).symm⟩
        · split at h
          · exact Or.inr ⟨_, _, (Except.error.inj h).symm⟩
          · exact ih _ _ _ h
  unfold createOrder
  split
  · exact Or.inl rfl
  · next items hitems =>
    split
    · exact Or.inl rfl
    · next hlen =>
      split
      · next e hc =>
        rcases hkind _ _ _ _ hc with ⟨id, rfl⟩ | ⟨title, available, rfl⟩
        · exact Or.inr (Or.inl ⟨id, rfl⟩)
        · exact Or.inr (Or.inr (Or.inl ⟨title, available, rfl⟩))
      · next subtotal lines hc =>
        refine Or.inr (Or.inr (Or.inr ⟨?_, items, subtotal, lines, hitems, ?_, hc⟩))
        · rw [create_document_rejected]
        · intro h0
          exact hlen (by rw [h0]; rfl)

theorem createOrder_snd (db : Db) (user : User) (req : CreateOrderRequest) (now : Nat) :
    (createOrder db user req now).2 = db := by
  rcases createOrder_cases db user req now with h | ⟨_, h⟩ | ⟨_, _, h⟩ | ⟨h, _⟩ <;> rw [h]

theorem createOrder_not_ok (db db' : Db) (user : User) (req : CreateOrderRequest) (now : Nat)
    (o : Order) : createOrder db user req now ≠ (.ok o, db') := by
  intro hok
  rcases createOrder_cases db user req now with h | ⟨_, h⟩ | ⟨_, _, h⟩ | ⟨h, _⟩ <;>
    rw [h] at hok <;> simp at hok

theorem createOrder_accepted (db : Db) (user : User) (req : CreateOrderRequest) (now : Nat)
    (items : List OrderItemRequest) (hitems : req.items = some items) (hne : items ≠ [])
    (hall : ∀ x ∈ items, lineAccepted db x) :
    createOrder db user req now = (.error .validationError, db) := by
  obtain ⟨r, hr⟩ := checkItems_ok_of_accepted db items hall 0 []
  have hlen : ¬ items.length = 0 := fun h0 => hne (List.length_eq_zero.mp h0)
  simp [createOrder, hitems, hlen, hr, create_document_rejected]

theorem updateStatus_ok_spec (o o1 : Order) (db db1 : Db) (t notes : String) (now : Nat)
    (h : o.updateStatus db t notes now = .ok (o1, db1)) :
    (∃ allowed, validTransitions o.orderStatus = some allowed ∧ t ∈ allowed) ∧
    o1.orderStatus = t ∧ o1.items = o.items ∧ o1.orderNumber = o.orderNumber ∧
    o1.user = o.user ∧ o1._id = o._id ∧ o1.trackingNumber = o.trackingNumber ∧
    o1.trackingUrl = o.trackingUrl ∧ db1.books = db.books ∧
    db1.orders = db.orders.map (fun x => if x._id = o1._id then o1 else x) := by
  unfold Order.updateStatus at h
  split at h
  · simp at h
  · next allowed hv =>
    split at h
    · simp at h
    · next hc =>
      have h' := Except.ok.inj h
      rw [save_notNew] at h'
      obtain ⟨rfl, rfl⟩ := Prod.mk.inj h'
      refine ⟨⟨allowed, hv, by simpa using hc⟩, ?_, ?_, ?_, ?_, ?_, ?_, ?_, rfl, rfl⟩ <;>
        (simp only [preSaveTotals]; split_ifs <;> rfl)

theorem addTracking_ok_spec (o o1 : Order) (db db1 : Db) (trackingNumber trackingUrl : String)
    (now : Nat) (h : o.addTracking db trackingNumber trackingUrl now = .ok (o1, db1)) :
    o.orderStatus = "shipped" ∧ o1.orderStatus = o.orderStatus ∧
    o1.trackingNumber = some (jsTrim trackingNumber) ∧
    o1.trackingUrl = some (jsTrim trackingUrl) ∧
    o1.items = o.items ∧ o1.orderNumber = o.orderNumber ∧ o1.user = o.user ∧ o1._id = o._id ∧
    db1.books = db.books ∧
    db1.orders = db.orders.map (fun x => if x._id = o1._id then o1 else x) := by
  unfold Order.addTracking at h
  split at h
  · simp at h
  · next hs =>
    rw [save_notNew] at h
    obtain ⟨rfl, rfl⟩ := Prod.mk.inj (Except.ok.inj h)
    exact ⟨not_not.mp hs, rfl, rfl, rfl, rfl, rfl, rfl, rfl, rfl, rfl⟩

theorem cancel_ok_frame (o o1 : Order) (db db1 : Db) (reason : String) (now : Nat)
    (h : o.cancel db reason now = .ok (o1, db1)) :
    o.canBeCancelled = true ∧ o1.orderNumber = o.orderNumber ∧ o1.user = o.user ∧
    o1.trackingNumber = o.trackingNumber ∧ o1.trackingUrl = o.trackingUrl := by
  unfold Order.cancel at h
  split at h
  · simp at h
  · next hc =>
    rw [save_notNew] at h
    obtain ⟨rfl, rfl⟩ := Prod.mk.inj (Except.ok.inj h)
    exact ⟨by simpa using hc, rfl, rfl, rfl, rfl⟩

theorem saveValidated_ok (db : Db) (o : Order) (isNew : Bool) (now : Nat) (r : Order × Db)
    (h : saveValidated db o isNew now = .ok r) :
    o.validate = true ∧ r = save db o isNew now := by
  unfold saveValidated at h
  split at h
  · next hv => exact ⟨hv, (Except.ok.inj h).symm⟩
  · simp at h

theorem processRefund_ok_spec (db db1 : Db) (orderId : Nat) (refundAmount : ℚ)
    (reason : Option String) (now : Nat) (o1 : Order)
    (h : processRefund db orderId refundAmount reason now = (.ok o1, db1)) :
    ∃ o, db.findOrderById orderId = some o ∧ refundAmount ≤ o.total ∧
      o1.orderStatus = o.orderStatus ∧ o1.refundAmount = refundAmount ∧
      o1.refundReason = reason ∧ o1.refundedAt = some now ∧
      o1.paymentStatus = (if refundAmount = o.total then "refunded" else "partially_refunded") ∧
      o1.items = o.items ∧ o1.orderNumber = o.orderNumber ∧ o1.user = o.user ∧
      o1._id = o._id ∧ o1.trackingNumber = o.trackingNumber ∧
      o1.trackingUrl = o.trackingUrl ∧ db1.books = db.books ∧
      db1.orders = db.orders.map (fun x => if x._id = o1._id then o1 else x) := by
  unfold processRefund at h
  split at h
  · simp at h
  · next o hfind =>
    split at h
    · simp at h
    · next hgt =>
      split at h
      · simp at h
      · next o2 db2 hs =>
        obtain ⟨_, hsave⟩ := saveValidated_ok _ _ _ _ _ hs
        rw [save_notNew] at hsave
        obtain ⟨rfl, rfl⟩ := Prod.mk.inj hsave
        obtain ⟨h1, h2⟩ := Prod.mk.inj h
        obtain rfl := Except.ok.inj h1
        subst h2
        exact ⟨o, hfind, not_lt.mp hgt, rfl, rfl, rfl, rfl, rfl, rfl, rfl, rfl, rfl, rfl,
          rfl, rfl, rfl⟩

theorem map_replace_twice (l : List Order) (o1 o2 : Order) (hid : o2._id = o1._id) :
    (l.map (fun x => if x._id = o1._id then o1 else x)).map
        (fun x => if x._id = o2._id then o2 else x)
      = l.map (fun x => if x._id = o2._id then o2 else x) := by
  rw [List.map_map]
  apply List.map_congr_left
  intro x _
  simp only [Function.comp]
  by_cases hx : x._id = o1._id
  · simp [hx, hid]
  · simp [hx, hid]

theorem updateOrderStatus_ok_spec (db db' : Db) (orderId : Nat) (status : String)
    (notes trackingNumber trackingUrl : Option String) (now : Nat) (o' : Order)
    (h : updateOrderStatus db orderId status notes trackingNumber trackingUrl now
      = (.ok o', db')) :
    ∃ o, db.findOrderById orderId = some o ∧
      (∃ allowed, validTransitions o.orderStatus = some allowed ∧ status ∈ allowed) ∧
      o'.orderStatus = status ∧ o'.items = o.items ∧ o'.orderNumber = o.orderNumber ∧
      o'.user = o.user ∧ o'._id = o._id ∧
      ((o'.trackingNumber = o.trackingNumber ∧ o'.trackingUrl = o.trackingUrl) ∨
        (status = "shipped" ∧ trackingNumber.getD "" ≠ "" ∧
          o'.trackingNumber = some (jsTrim (trackingNumber.getD "")) ∧
          o'.trackingUrl = some (jsTrim (trackingUrl.getD "")))) ∧
      db'.books = db.books ∧
      db'.orders = db.orders.map (fun x => if x._id = o'._id then o' else x) := by
  unfold updateOrderStatus at h
  split at h
  · simp at h
  · next o hfind =>
    split at h
    · simp at h
    · next o1 db1 hu =>
      obtain ⟨hal, hs, hit, hon, hus, hid, htn, htu, hbk, hord⟩ :=
        updateStatus_ok_spec _ _ _ _ _ _ _ hu
      split at h
      · next hcond =>
        split at h
        · simp at h
        · next o2 db2 ha =>
          obtain ⟨_, hs2, htn2, htu2, hit2, hon2, hus2, hid2, hbk2, hord2⟩ :=
            addTracking_ok_spec _ _ _ _ _ _ _ ha
          obtain ⟨h1, h2⟩ := Prod.mk.inj h
          obtain rfl := Except.ok.inj h1
          subst h2
          simp only [ne_eq, Bool.and_eq_true, decide_eq_true_eq, Bool.not_eq_true',
            decide_eq_false_iff_not] at hcond
          refine ⟨o, hfind, hal, by rw [hs2, hs], by rw [hit2, hit], by rw [hon2, hon],
            by rw [hus2, hus], by rw [hid2, hid], Or.inr ⟨hcond.2, hcond.1, htn2, htu2⟩,
            by rw [hbk2, hbk], ?_⟩
          rw [hord2, hord, map_replace_twice _ _ _ hid2]
      · obtain ⟨h1, h2⟩ := Prod.mk.inj h
        obtain rfl := Except.ok.inj h1
        subst h2
        exact ⟨o, hfind, hal, hs, hit, hon, hus, hid, Or.inl ⟨htn, htu⟩, hbk, hord⟩

theorem updateOrderStatus_error_db (db db' : Db) (orderId : Nat) (status : String)
    (notes trackingNumber trackingUrl : Option String) (now : Nat) (e : OrderError)
    (h : updateOrderStatus db orderId status notes trackingNumber trackingUrl now
      = (.error e, db')) : db' = db := by
  unfold updateOrderStatus at h
  split at h
  · exact (Prod.mk.inj h).2.symm
  · split at h
    · exact (Prod.mk.inj h).2.symm
    · next o1 db1 hu =>
      obtain ⟨_, hs, _⟩ := updateStatus_ok_spec _ _ _ _ _ _ _ hu
      split at h
      · next hcond =>
        simp only [ne_eq, Bool.and_eq_true, decide_eq_true_eq, Bool.not_eq_true',
          decide_eq_false_iff_not] at hcond
        split at h
        · next e' ha =>
          exfalso
          have hsh : o1.orderStatus = "shipped" := by rw [hs, hcond.2]
          simp [Order.addTracking, hsh] at ha
        · simp at h
      · simp at h

theorem cancelOrder_error_db (db db' : Db) (user : User) (orderId : Nat)
    (reason : Option String) (now : Nat) (e : OrderError)
    (h : cancelOrder db user orderId reason now = (.error e, db')) : db' = db := by
  unfold cancelOrder at h
  split at h
  · exact (Prod.mk.inj h).2.symm
  · split at h
    · exact (Prod.mk.inj h).2.symm
    · split at h
      · exact (Prod.mk.inj h).2.symm
      · simp at h

theorem find_map_replace_ne (l : List Order) (o1 : Order) (id : Nat) (hne : o1._id ≠ id) :
    (l.map (fun x => if x._id = o1._id then o1 else x)).find? (fun x => x._id == id)
      = l.find? (fun x => x._id == id) := by
  induction l with
  | nil => rfl
  | cons x xs ih =>
    rw [List.map_cons]
    by_cases hx : x._id = o1._id
    · have hxid : x._id ≠ id := by rw [hx]; exact hne
      rw [if_pos hx, List.find?_cons_of_neg _ (by simpa using hne),
        List.find?_cons_of_neg _ (by simpa using hxid), ih]
    · rw [if_neg hx]
      by_cases hxid : x._id = id
      · rw [List.find?_cons_of_pos _ (by simpa using hxid),
          List.find?_cons_of_pos _ (by simpa using hxid)]
      · rw [List.find?_cons_of_neg _ (by simpa using hxid),
          List.find?_cons_of_neg _ (by simpa using hxid), ih]

theorem find_map_replace_eq (l : List Order) (o o1 : Order) (id : Nat)
    (hf : l.find? (fun x => x._id == id) = some o) (h1 : o1._id = id) :
    (l.map (fun x => if x._id = o1._id then o1 else x)).find? (fun x => x._id == id)
      = some o1 := by
  induction l with
  | nil => simp at hf
  | cons x xs ih =>
    rw [List.map_cons]
    by_cases hxid : x._id = id
    · rw [if_pos (by rw [hxid, h1]), List.find?_cons_of_pos _ (by simpa using h1)]
    · have hx : ¬ x._id = o1._id := by rw [h1]; exact hxid
      rw [List.find?_cons_of_neg _ (by simpa using hxid)] at hf
      rw [if_neg hx, List.find?_cons_of_neg _ (by simpa using hxid), ih hf]

theorem map_replace_ids (l : List Order) (o1 : Order) :
    (l.map (fun x => if x._id = o1._id then o1 else x)).map (fun x => x._id)
      = l.map (fun x => x._id) := by
  rw [List.map_map]
  apply List.map_congr_left
  intro x _
  simp only [Function.comp]
  split
  · next hx => exact hx.symm
  · rfl

theorem findOrderById_spec (db : Db) (id : Nat) (o : Order)
    (h : db.findOrderById id = some o) : o ∈ db.orders ∧ o._id = id := by
  unfold Db.findOrderById at h
  exact ⟨List.mem_of_find?_eq_some h, by simpa using List.find?_some h⟩

theorem findOrderFor_spec (db : Db) (user : User) (id : Nat) (o : Order)
    (h : db.findOrderFor user id = some o) :
    o ∈ db.orders ∧ o._id = id ∧ (user.role = "admin" ∨ o.user = user.id) := by
  unfold Db.findOrderFor at h
  have hp := List.find?_some h
  simp only [Bool.and_eq_true, beq_iff_eq, Bool.or_eq_true] at hp
  exact ⟨List.mem_of_find?_eq_some h, hp.1, hp.2⟩

theorem eq_of_mem_of_id_eq (l : List Order) (hnd : (l.map (fun x => x._id)).Nodup)
    (a b : Order) (ha : a ∈ l) (hb : b ∈ l) (hid : a._id = b._id) : a = b :=
  List.inj_on_of_nodup_map hnd ha hb hid

theorem cancelOrder_ok_spec (db db' : Db) (user : User) (orderId : Nat)
    (reason : Option String) (now : Nat) (o' : Order)
    (h : cancelOrder db user orderId reason now = (.ok o', db')) :
    ∃ o, db.findOrderFor user orderId = some o ∧ o.canBeCancelled = true ∧
      o'.orderStatus = "cancelled" ∧ o'.items = o.items ∧ o'.orderNumber = o.orderNumber ∧
      o'.user = o.user ∧ o'._id = o._id ∧
      db'.orders = db.orders.map (fun x => if x._id = o'._id then o' else x) := by
  unfold cancelOrder at h
  split at h
  · simp at h
  · next o hfind =>
    split at h
    · simp at h
    · split at h
      · simp at h
      · next o1 db1 hc =>
        obtain ⟨hs, _, _, hitems, hid, _, hord⟩ := cancel_ok_spec _ _ _ _ _ _ hc
        obtain ⟨hcc, hon, hus, _, _⟩ := cancel_ok_frame _ _ _ _ _ _ hc
        obtain ⟨h1, h2⟩ := Prod.mk.inj h
        obtain rfl := Except.ok.inj h1
        subst h2
        exact ⟨o, hfind, hcc, hs, hitems, hon, hus, hid, by rw [restoreStock_orders, hord]⟩

theorem processRefund_error_db (db db' : Db) (orderId : Nat) (refundAmount : ℚ)
    (reason : Option String) (now : Nat) (e : OrderError)
    (h : processRefund db orderId refundAmount reason now = (.error e, db')) : db' = db := by
  unfold processRefund at h
  split at h
  · exact (Prod.mk.inj h).2.symm
  · split at h
    · exact (Prod.mk.inj h).2.symm
    · split at h
      · exact (Prod.mk.inj h).2.symm
      · simp at h

theorem find_after_replace (db db' : Db) (id : Nat) (o ot o1 : Order)
    (hnd : (db.orders.map (fun x => x._id)).Nodup) (hfind : db.findOrderById id = some o)
    (hot : ot ∈ db.orders) (hid : o1._id = ot._id)
    (hord : db'.orders = db.orders.map (fun x => if x._id = o1._id then o1 else x)) :
    db'.findOrderById id = some o ∨ (db'.findOrderById id = some o1 ∧ ot = o) := by
  obtain ⟨hmem, hoid⟩ := findOrderById_spec _ _ _ hfind
  unfold Db.findOrderById at hfind ⊢
  rw [hord]
  by_cases h : ot._id = id
  · right
    have heq : ot = o := eq_of_mem_of_id_eq _ hnd _ _ hot hmem (by rw [h, hoid])
    exact ⟨find_map_replace_eq _ _ _ _ hfind (by rw [hid, h]), heq⟩
  · left
    rw [find_map_replace_ne _ _ _ (by rw [hid]; exact h)]
    exact hfind

theorem applyOp_ids (db : Db) (now : Nat) (op : OrderOp) :
    (applyOp db now op).orders.map (fun x => x._id) = db.orders.map (fun x => x._id) := by
  cases op with
  | updateStatus orderId status notes trackingNumber trackingUrl =>
    simp only [applyOp]
    rcases hr : updateOrderStatus db orderId status notes trackingNumber trackingUrl now
      with ⟨res, db'⟩
    cases res with
    | error e => rw [updateOrderStatus_error_db _ _ _ _ _ _ _ _ _ hr]
    | ok o1 =>
      obtain ⟨_, _, _, _, _, _, _, _, _, _, hord⟩ := updateOrderStatus_ok_spec _ _ _ _ _ _ _ _ _ hr
      simp only [hord, map_replace_ids]
  | cancel user orderId reason =>
    simp only [applyOp]
    rcases hr : cancelOrder db user orderId reason now with ⟨res, db'⟩
    cases res with
    | error e => rw [cancelOrder_error_db _ _ _ _ _ _ _ hr]
    | ok o1 =>
      obtain ⟨_, _, _, _, _, _, _, _, hord⟩ := cancelOrder_ok_spec _ _ _ _ _ _ _ hr
      simp only [hord, map_replace_ids]
  | addTracking orderId trackingNumber trackingUrl =>
    simp only [applyOp]
    split
    · rfl
    · split
      · rfl
      · next o1 db1 ha =>
        obtain ⟨_, _, _, _, _, _, _, _, _, hord⟩ := addTracking_ok_spec _ _ _ _ _ _ _ ha
        simp only [hord, map_replace_ids]
  | refund orderId refundAmount reason =>
    simp only [applyOp]
    rcases hr : processRefund db orderId refundAmount reason now with ⟨res, db'⟩
    cases res with
    | error e => rw [processRefund_error_db _ _ _ _ _ _ _ hr]
    | ok o1 =>
      obtain ⟨_, _, _, _, _, _, _, _, _, _, _, _, _, _, _, hord⟩ :=
        processRefund_ok_spec _ _ _ _ _ _ _ hr
      simp only [hord, map_replace_ids]

theorem applyOp_find (db : Db) (now : Nat) (op : OrderOp) (id : Nat) (o : Order)
    (hnd : (db.orders.map (fun x => x._id)).Nodup) (hfind : db.findOrderById id = some o) :
    ∃ o', (applyOp db now op).findOrderById id = some o' ∧ o'.items = o.items ∧
      o'.orderNumber = o.orderNumber ∧ o'.user = o.user ∧
      (o'.orderStatus = o.orderStatus ∨
        (∃ allowed, validTransitions o.orderStatus = some allowed ∧ o'.orderStatus ∈ allowed) ∨
        (o.canBeCancelled = true ∧ o'.orderStatus = "cancelled")) := by
  have hsame : ∃ o', db.findOrderById id = some o' ∧ o'.items = o.items ∧
      o'.orderNumber = o.orderNumber ∧ o'.user = o.user ∧
      (o'.orderStatus = o.orderStatus ∨
        (∃ allowed, validTransitions o.orderStatus = some allowed ∧ o'.orderStatus ∈ allowed) ∨
        (o.canBeCancelled = true ∧ o'.orderStatus = "cancelled")) :=
    ⟨o, hfind, rfl, rfl, rfl, Or.inl rfl⟩
  cases op with
  | updateStatus orderId status notes trackingNumber trackingUrl =>
    simp only [applyOp]
    rcases hr : updateOrderStatus db orderId status notes trackingNumber trackingUrl now
      with ⟨res, db'⟩
    cases res with
    | error e => rw [updateOrderStatus_error_db _ _ _ _ _ _ _ _ _ hr]; exact hsame
    | ok o1 =>
      obtain ⟨ot, hft, hal, hs, hit, hon, hus, hid, _, _, hord⟩ :=
        updateOrderStatus_ok_spec _ _ _ _ _ _ _ _ _ hr
      rcases find_after_replace db db' id o ot o1 hnd hfind (findOrderById_spec _ _ _ hft).1
        hid hord with h | ⟨h, rfl⟩
      · exact ⟨o, h, rfl, rfl, rfl, Or.inl rfl⟩
      · refine ⟨o1, h, hit, hon, hus, Or.inr (Or.inl ?_)⟩
        obtain ⟨allowed, hv, hmem⟩ := hal
        exact ⟨allowed, hv, by rw [hs]; exact hmem⟩
  | cancel user orderId reason =>
    simp only [applyOp]
    rcases hr : cancelOrder db user orderId reason now with ⟨res, db'⟩
    cases res with
    | error e => rw [cancelOrder_error_db _ _ _ _ _ _ _ hr]; exact hsame
    | ok o1 =>
      obtain ⟨ot, hft, hcc, hs, hit, hon, hus, hid, hord⟩ :=
        cancelOrder_ok_spec _ _ _ _ _ _ _ hr
      rcases find_after_replace db db' id o ot o1 hnd hfind (findOrderFor_spec _ _ _ _ hft).1
        hid hord with h | ⟨h, rfl⟩
      · exact ⟨o, h, rfl, rfl, rfl, Or.inl rfl⟩
      · exact ⟨o1, h, hit, hon, hus, Or.inr (Or.inr ⟨hcc, hs⟩)⟩
  | addTracking orderId trackingNumber trackingUrl =>
    simp only [applyOp]
    split
    · exact hsame
    · next ot hft =>
      split
      · exact hsame
      · next o1 db1 ha =>
        obtain ⟨_, hs, _, _, hit, hon, hus, hid, _, hord⟩ :=
          addTracking_ok_spec _ _ _ _ _ _ _ ha
        rcases find_after_replace db db1 id o ot o1 hnd hfind (findOrderById_spec _ _ _ hft).1
          hid hord with h | ⟨h, rfl⟩
        · exact ⟨o, h, rfl, rfl, rfl, Or.inl rfl⟩
        · exact ⟨o1, h, hit, hon, hus, Or.inl hs⟩
  | refund orderId refundAmount reason =>
    simp only [applyOp]
    rcases hr : processRefund db orderId refundAmount reason now with ⟨res, db'⟩
    cases res with
    | error e => rw [processRefund_error_db _ _ _ _ _ _ _ hr]; exact hsame
    | ok o1 =>
      obtain ⟨ot, hft, _, hs, _, _, _, _, hit, hon, hus, hid, _, _, _, hord⟩ :=
        processRefund_ok_spec _ _ _ _ _ _ _ hr
      rcases find_after_replace db db' id o ot o1 hnd hfind (findOrderById_spec _ _ _ hft).1
        hid hord with h | ⟨h, rfl⟩
      · exact ⟨o, h, rfl, rfl, rfl, Or.inl rfl⟩
      · exact ⟨o1, h, hit, hon, hus, Or.inl hs⟩

theorem digitChar_ne_dash (d : Nat) (hd : d < 10) : Nat.digitChar d ≠ '-' := by
  interval_cases d <;> decide

theorem digitChar_ne_zero (d : Nat) (hd : d < 10) (h0 : d ≠ 0) : Nat.digitChar d ≠ '0' := by
  interval_cases d <;> first | exact absurd rfl h0 | decide

theorem digitChar_toNat (d : Nat) (hd : d < 10) : (Nat.digitChar d).toNat - 48 = d := by
  interval_cases d <;> decide

theorem toDigitsCore_eq_digits (fuel n : Nat) (ds : List Char) (hn : 0 < n) (hf : n < fuel) :
    Nat.toDigitsCore 10 fuel n ds = ((Nat.digits 10 n).reverse.map Nat.digitChar) ++ ds := by
  induction fuel generalizing n ds with
  | zero => omega
  | succ fuel ih =>
    rw [Nat.toDigitsCore, Nat.digits_def' (by norm_num) hn]
    by_cases h0 : n / 10 = 0
    · simp [h0]
    · simp only [h0, if_false]
      rw [ih (n / 10) _ (Nat.pos_of_ne_zero h0) (by omega)]
      simp

theorem toDigits_eq_digits (n : Nat) (hn : 0 < n) :
    Nat.toDigits 10 n = (Nat.digits 10 n).reverse.map Nat.digitChar := by
  rw [Nat.toDigits, toDigitsCore_eq_digits _ _ _ hn (Nat.lt_succ_self n), List.append_nil]

theorem toDigits_no_dash (n : Nat) : '-' ∉ Nat.toDigits 10 n := by
  rcases Nat.eq_zero_or_pos n with rfl | hn
  · decide
  · rw [toDigits_eq_digits n hn]
    intro hmem
    rw [List.mem_map] at hmem
    obtain ⟨d, hd, hdc⟩ := hmem
    exact digitChar_ne_dash d (Nat.digits_lt_base (by norm_num) (List.mem_reverse.mp hd)) hdc

theorem toDigits_injective_pos (n m : Nat) (hn : 0 < n) (hm : 0 < m)
    (h : Nat.toDigits 10 n = Nat.toDigits 10 m) : n = m := by
  rw [toDigits_eq_digits n hn, toDigits_eq_digits m hm] at h
  have hval : ∀ k : Nat, ((Nat.digits 10 k).reverse.map Nat.digitChar).map
      (fun c => c.toNat - 48) = (Nat.digits 10 k).reverse := by
    intro k
    rw [List.map_map]
    conv_rhs => rw [← List.map_id (Nat.digits 10 k).reverse]
    apply List.map_congr_left
    intro d hd
    exact digitChar_toNat d (Nat.digits_lt_base (by norm_num) (List.mem_reverse.mp hd))
  have h2 := congrArg (List.map (fun c : Char => c.toNat - 48)) h
  rw [hval n, hval m] at h2
  exact Nat.digits_inj_iff.mp (List.reverse_injective h2)

theorem toDigits_head_ne_zero (n : Nat) (hn : 0 < n) :
    ∃ c cs, Nat.toDigits 10 n = c :: cs ∧ c ≠ '0' := by
  rw [toDigits_eq_digits n hn]
  have hne : Nat.digits 10 n ≠ [] := Nat.digits_ne_nil_iff_ne_zero.mpr (Nat.pos_iff_ne_zero.mp hn)
  have hlast := Nat.getLast_digit_ne_zero 10 (Nat.pos_iff_ne_zero.mp hn)
  have hmem := List.getLast_mem hne
  obtain ⟨init, hinit⟩ : ∃ init, Nat.digits 10 n = init ++ [(Nat.digits 10 n).getLast hne] :=
    ⟨_, (List.dropLast_append_getLast hne).symm⟩
  refine ⟨Nat.digitChar ((Nat.digits 10 n).getLast hne), init.reverse.map Nat.digitChar, ?_, ?_⟩
  · conv_lhs => rw [hinit]
    simp
  · exact digitChar_ne_zero _ (Nat.digits_lt_base (by norm_num) hmem) hlast

theorem append_dash_inj (t1 t2 p1 p2 : List Char) (h1 : '-' ∉ t1) (h2 : '-' ∉ t2)
    (h : t1 ++ '-' :: p1 = t2 ++ '-' :: p2) : t1 = t2 ∧ p1 = p2 := by
  induction t1 generalizing t2 with
  | nil =>
    cases t2 with
    | nil => exact ⟨rfl, (List.cons.inj h).2⟩
    | cons y ys =>
      exfalso
      have := (List.cons.inj h).1
      exact h2 (by rw [← this]; exact List.mem_cons_self _ _)
  | cons x xs ih =>
    cases t2 with
    | nil =>
      exfalso
      have := (List.cons.inj h).1
      exact h1 (by rw [this]; exact List.mem_cons_self _ _)
    | cons y ys =>
      obtain ⟨hxy, hrest⟩ := List.cons.inj h
      obtain ⟨ht, hp⟩ := ih ys (fun hm => h1 (List.mem_cons_of_mem _ hm))
        (fun hm => h2 (List.mem_cons_of_mem _ hm)) hrest
      exact ⟨by rw [hxy, ht], hp⟩

theorem replicate_append_inj (k1 k2 : Nat) (a x y : Char) (xs ys : List Char) (hx : x ≠ a)
    (hy : y ≠ a) (h : List.replicate k1 a ++ x :: xs = List.replicate k2 a ++ y :: ys) :
    x :: xs = y :: ys := by
  induction k1 generalizing k2 with
  | zero =>
    cases k2 with
    | zero => simpa using h
    | succ k =>
      exfalso
      simp only [List.replicate_zero, List.nil_append, List.replicate_succ,
        List.cons_append] at h
      exact hx (List.cons.inj h).1
  | succ k ih =>
    cases k2 with
    | zero =>
      exfalso
      simp only [List.replicate_zero, List.nil_append, List.replicate_succ,
        List.cons_append] at h
      exact hy (List.cons.inj h).1.symm
    | succ k' =>
      simp only [List.replicate_succ, List.cons_append] at h
      exact ih k' (List.cons.inj h).2

theorem orderNumber_format_inj (now1 now2 count1 count2 : Nat)
    (h : "ORD-" ++ toString now1 ++ "-" ++ padStart (toString (count1 + 1)) 4 '0'
       = "ORD-" ++ toString now2 ++ "-" ++ padStart (toString (count2 + 1)) 4 '0') :
    count1 = count2 := by
  have hd := congrArg String.data h
  simp only [String.data_append, padStart, List.append_assoc] at hd
  have hd1 : (toString now1).data ++ ('-' :: (List.replicate (4 - (toString (count1 + 1)).length) '0'
        ++ (toString (count1 + 1)).data))
      = (toString now2).data ++ ('-' :: (List.replicate (4 - (toString (count2 + 1)).length) '0'
        ++ (toString (count2 + 1)).data)) := List.append_cancel_left hd
  have ht : ∀ n : Nat, (toString n).data = Nat.toDigits 10 n := fun _ => rfl
  rw [ht now1, ht now2, ht (count1 + 1), ht (count2 + 1)] at hd1
  obtain ⟨_, hp⟩ := append_dash_inj _ _ _ _ (toDigits_no_dash now1) (toDigits_no_dash now2) hd1
  obtain ⟨c1, cs1, he1, hc1⟩ := toDigits_head_ne_zero (count1 + 1) (Nat.succ_pos _)
  obtain ⟨c2, cs2, he2, hc2⟩ := toDigits_head_ne_zero (count2 + 1) (Nat.succ_pos _)
  rw [he1, he2] at hp
  have hr := replicate_append_inj _ _ _ _ _ _ _ hc1 hc2 hp
  rw [← he1, ← he2] at hr
  have := toDigits_injective_pos _ _ (Nat.succ_pos _) (Nat.succ_pos _) hr
  omega

theorem updateStatus_ok_fields (o o1 : Order) (db db1 : Db) (t notes : String) (now : Nat)
    (h : o.updateStatus db t notes now = .ok (o1, db1)) :
    o1.deliveredAt = (if t = "delivered" then some now else o.deliveredAt) ∧
    o1.cancelledAt = (if t = "delivered" then o.cancelledAt
                      else if t = "cancelled" then some now else o.cancelledAt) ∧
    o1.notes = (if notes ≠ "" then some notes else o.notes) := by
  unfold Order.updateStatus at h
  split at h
  · simp at h
  · split at h
    · simp at h
    · have h' := Except.ok.inj h
      rw [save_notNew] at h'
      obtain ⟨rfl, rfl⟩ := Prod.mk.inj h'
      refine ⟨?_, ?_, ?_⟩ <;> (simp only [preSaveTotals]; split_ifs <;> rfl)

theorem validTransitions_cancelled (s : String) (allowed : List String)
    (hv : validTransitions s = some allowed) (hmem : "cancelled" ∈ allowed) :
    s = "pending" ∨ s = "confirmed" ∨ s = "processing" ∨ s = "shipped" := by
  unfold validTransitions at hv
  split_ifs at hv with h1 h2 h3 h4 h5 h6 h7
  · exact Or.inl h1
  · exact Or.inr (Or.inl h2)
  · exact Or.inr (Or.inr (Or.inl h3))
  · exact Or.inr (Or.inr (Or.inr h4))
  · obtain rfl := Option.some.inj hv
    simp at hmem
  · obtain rfl := Option.some.inj hv
    simp at hmem
  · obtain rfl := Option.some.inj hv
    simp at hmem

theorem runCreates_cons (db : Db) (c : User × CreateOrderRequest × Nat)
    (rest : List (User × CreateOrderRequest × Nat)) :
    runCreates db (c :: rest)
      = ((createOrder db c.1 c.2.1 c.2.2).1
            :: (runCreates (createOrder db c.1 c.2.1 c.2.2).2 rest).1,
         (runCreates (createOrder db c.1 c.2.1 c.2.2).2 rest).2) := by
  obtain ⟨u, r, n⟩ := c
  rfl

theorem runCreates_spec (calls : List (User × CreateOrderRequest × Nat)) (db : Db) :
    (runCreates db calls).2 = db ∧ (runCreates db calls).1.length = calls.length ∧
    ∀ x ∈ (runCreates db calls).1, ∀ o, x ≠ .ok o := by
  induction calls with
  | nil => exact ⟨rfl, rfl, fun x hx => by simp [runCreates] at hx⟩
  | cons c rest ih =>
    rw [runCreates_cons, createOrder_snd]
    obtain ⟨h1, h2, h3⟩ := ih
    refine ⟨h1, by simp [h2], ?_⟩
    intro x hx o hxo
    rcases List.mem_cons.mp hx with rfl | hx
    · exact createOrder_not_ok db db c.1 c.2.1 c.2.2 o
        (Prod.ext hxo (createOrder_snd db c.1 c.2.1 c.2.2))
    · exact h3 x hx o hxo

theorem cancelOrder_ok_books (db db' : Db) (user : User) (orderId : Nat)
    (reason : Option String) (now : Nat) (o' : Order)
    (h : cancelOrder db user orderId reason now = (.ok o', db')) :
    ∃ o, db.findOrderFor user orderId = some o ∧
      ∀ id, db'.books id
        = (db.books id).map (fun b => { b with stock := b.stock + orderedQuantity o.items id }) := by
  unfold cancelOrder at h
  split at h
  · simp at h
  · next o hfind =>
    split at h
    · simp at h
    · split at h
      · simp at h
      · next o1 db1 hc =>
        obtain ⟨_, _, _, hitems, _, hbk, _⟩ := cancel_ok_spec _ _ _ _ _ _ hc
        obtain ⟨_, h2⟩ := Prod.mk.inj h
        subst h2
        refine ⟨o, hfind, ?_⟩
        intro id
        rw [restoreStock_books, hbk, hitems]

theorem statusRank_le (s : String) : statusRank s ≤ 5 := by
  unfold statusRank
  split_ifs <;> omega

theorem statusRank_lt_of_transition (s t : String) (allowed : List String)
    (hv : validTransitions s = some allowed) (hmem : t ∈ allowed) :
    statusRank s < statusRank t := by
  unfold validTransitions at hv
  split_ifs at hv with h1 h2 h3 h4 h5 h6 h7 <;> obtain rfl := Option.some.inj hv <;>
    simp only [List.mem_cons, List.mem_singleton, List.not_mem_nil, or_false] at hmem
  · rcases hmem with rfl | rfl <;> rw [h1] <;> decide
  · rcases hmem with rfl | rfl <;> rw [h2] <;> decide
  · rcases hmem with rfl | rfl <;> rw [h3] <;> decide
  · rcases hmem with rfl | rfl <;> rw [h4] <;> decide
  · rw [hmem, h5]; decide

theorem statusTrace_spec (calls : List (String × String × Nat)) (o : Order) (db : Db)
    (trace : List String) (h : statusTrace o db calls = some trace) :
    (∀ s ∈ trace, statusRank o.orderStatus ≤ statusRank s) ∧ trace.Nodup ∧
    trace.length = calls.length + 1 ∧ statusRank o.orderStatus + calls.length ≤ 5 := by
  induction calls generalizing o db trace with
  | nil =>
    simp only [statusTrace, Option.some.injEq] at h
    subst h
    refine ⟨?_, List.nodup_singleton _, rfl, ?_⟩
    · intro s hs
      rw [List.mem_singleton] at hs
      rw [hs]
    · simpa using statusRank_le o.orderStatus
  | cons c rest ih =>
    obtain ⟨t, notes, now⟩ := c
    unfold statusTrace at h
    split at h
    · simp at h
    · next o1 db1 hu =>
      obtain ⟨⟨allowed, hv, hmem⟩, hs, _⟩ := updateStatus_ok_spec _ _ _ _ _ _ _ hu
      have hlt := statusRank_lt_of_transition _ _ _ hv hmem
      cases hrest : statusTrace o1 db1 rest with
      | none => simp [hrest] at h
      | some trace1 =>
        simp only [hrest, Option.map_some', Option.some.injEq] at h
        subst h
        obtain ⟨h1, h2, h3, h4⟩ := ih o1 db1 trace1 hrest
        rw [hs] at h1 h4
        refine ⟨?_, ?_, ?_, ?_⟩
        · intro s hs'
          rcases List.mem_cons.mp hs' with rfl | hs'
          · exact le_refl _
          · exact le_of_lt (lt_of_lt_of_le hlt (h1 s hs'))
        · rw [List.nodup_cons]
          refine ⟨?_, h2⟩
          intro hin
          exact absurd (h1 _ hin) (not_le.mpr hlt)
        · simp [h3]
        · simp only [List.length_cons]
          omega

theorem orderedQuantity_nonneg (items : List OrderItem) (id : Nat) :
    0 ≤ orderedQuantity items id := by
  unfold orderedQuantity
  apply List.sum_nonneg
  intro x hx
  obtain ⟨l, _, rfl⟩ := List.mem_map.mp hx
  exact Int.ofNat_nonneg _

theorem cancelOrder_stock_nonneg (db : Db) (user : User) (orderId : Nat)
    (reason : Option String) (now : Nat) (h : ∀ id b, db.books id = some b → 0 ≤ b.stock) :
    ∀ id b, (cancelOrder db user orderId reason now).2.books id = some b → 0 ≤ b.stock := by
  intro id b hb
  rcases hres : cancelOrder db user orderId reason now with ⟨r, db'⟩
  rw [hres] at hb
  cases r with
  | error e =>
    rw [cancelOrder_error_db db db' user orderId reason now e hres] at hb
    exact h id b hb
  | ok o' =>
    obtain ⟨o, _, hbooks⟩ := cancelOrder_ok_books db db' user orderId reason now o' hres
    simp only [hbooks id] at hb
    cases hold : db.books id with
    | none => simp [hold] at hb
    | some b0 =>
      simp only [hold, Option.map_some', Option.some.injEq] at hb
      subst hb
      exact add_nonneg (h id b0 hold) (orderedQuantity_nonneg _ _)

theorem updateOrderStatus_snd_books (db : Db) (orderId : Nat) (status : String)
    (notes trackingNumber trackingUrl : Option String) (now : Nat) :
    (updateOrderStatus db orderId status notes trackingNumber trackingUrl now).2.books
      = db.books := by
  rcases hres : updateOrderStatus db orderId status notes trackingNumber trackingUrl now
    with ⟨r, db'⟩
  cases r with
  | error e =>
    rw [updateOrderStatus_error_db db db' orderId status notes trackingNumber trackingUrl now e
      hres]
  | ok o' =>
    obtain ⟨_, _, _, _, _, _, _, _, _, hbooks, _⟩ :=
      updateOrderStatus_ok_spec db db' orderId status notes trackingNumber trackingUrl now o' hres
    exact hbooks

theorem applyRequest_stock_nonneg (db : Db) (now : Nat) (r : ShopRequest)
    (h : ∀ id b, db.books id = some b → 0 ≤ b.stock) :
    ∀ id b, (applyRequest db now r).books id = some b → 0 ≤ b.stock := by
  cases r with
  | create user req =>
    simp only [applyRequest, createOrder_snd]
    exact h
  | cancel user orderId reason =>
    exact cancelOrder_stock_nonneg db user orderId reason now h
  | updateStatus orderId status notes trackingNumber trackingUrl =>
    simp only [applyRequest, updateOrderStatus_snd_books]
    exact h

theorem sampleBooks_stock_nonneg (orders : List Order) :
    ∀ id b, ({ books := fun i => if i = 1 then some sampleBook else none,
               orders := orders } : Db).books id = some b → 0 ≤ b.stock := by
  intro id b h
  simp only at h
  split at h
  · cases h
    decide
  · cases h

theorem refundDocument_validate (o : Order) (refundAmount : ℚ) (reason : Option String)
    (now : Nat) (hv : o.validate = true) (hamt : 0 ≤ refundAmount) :
    (refundDocument o refundAmount reason now).validate = true := by
  simp only [Order.validate, Bool.and_eq_true, decide_eq_true_eq] at hv ⊢
  obtain ⟨⟨⟨⟨⟨⟨⟨⟨⟨⟨⟨⟨⟨⟨h1, h2⟩, h3⟩, h4⟩, _⟩, h6⟩, h7⟩, h8⟩, h9⟩, h10⟩, h11⟩, h12⟩, _⟩, h14⟩,
    h15⟩ := hv
  refine ⟨⟨⟨⟨⟨⟨⟨⟨⟨⟨⟨⟨⟨⟨h1, h2⟩, h3⟩, h4⟩, ?_⟩, h6⟩, h7⟩, h8⟩, h9⟩, h10⟩, h11⟩, h12⟩, hamt⟩, h14⟩,
    h15⟩
  simp only [refundDocument]
  split <;> decide

theorem sampleOrder_validate (status : String) (hs : status ∈ orderStatusValues) :
    (sampleOrder status).validate = true := by
  have hc : orderStatusValues.contains status = true := by simpa using hs
  simp only [Order.validate, Bool.and_eq_true, decide_eq_true_eq]
  refine ⟨⟨⟨⟨⟨⟨⟨⟨⟨⟨⟨⟨⟨⟨?_, ?_⟩, ?_⟩, ?_⟩, ?_⟩, hc⟩, ?_⟩, ?_⟩, ?_⟩, ?_⟩, ?_⟩, ?_⟩, ?_⟩, ?_⟩, ?_⟩
  all_goals simp [sampleOrder, sampleAddress, OrderItem.validate, ShippingAddress.validate,
    paymentMethodValues, paymentStatusValues]
  all_goals norm_num

/-! ## Claims -/

/-- C1: for an order whose status is one of the seven schema values and any requested status
`t`, `updateStatus` fails with the invalid-transition error exactly when `t` is not listed for
the current status in the table pending -> confirmed, cancelled; confirmed -> processing,
cancelled; processing -> shipped, cancelled; shipped -> delivered, cancelled;
delivered -> returned; cancelled, returned -> nothing. In every other case it succeeds. -/
theorem updateStatus_invalidTransition_iff (o : Order) (db : Db) (t notes : String) (now : Nat)
    (hs : o.orderStatus ∈ orderStatusValues) :
    (o.updateStatus db t notes now = .error (.invalidTransition o.orderStatus t) ↔
      ¬ ((o.orderStatus = "pending" ∧ (t = "confirmed" ∨ t = "cancelled")) ∨
         (o.orderStatus = "confirmed" ∧ (t = "processing" ∨ t = "cancelled")) ∨
         (o.orderStatus = "processing" ∧ (t = "shipped" ∨ t = "cancelled")) ∨
         (o.orderStatus = "shipped" ∧ (t = "delivered" ∨ t = "cancelled")) ∨
         (o.orderStatus = "delivered" ∧ t = "returned"))) ∧
    ((∃ r, o.updateStatus db t notes now = .ok r) ∨
      o.updateStatus db t notes now = .error (.invalidTransition o.orderStatus t)) := by
  simp only [orderStatusValues, List.mem_cons, List.mem_singleton, List.not_mem_nil,
    or_false] at hs
  rcases hs with h | h | h | h | h | h | h <;>
    by_cases h1 : t = "confirmed" <;> by_cases h2 : t = "cancelled" <;>
    by_cases h3 : t = "processing" <;> by_cases h4 : t = "shipped" <;>
    by_cases h5 : t = "delivered" <;> by_cases h6 : t = "returned" <;>
    simp_all [Order.updateStatus, validTransitions]

/-- Witness for C1: a delivered order asked to go back to processing is rejected. -/
theorem updateStatus_invalidTransition_iff_witness :
    (sampleOrder "delivered").orderStatus ∈ orderStatusValues ∧
    (sampleOrder "delivered").updateStatus (sampleDbWith "delivered") "processing" "" 5
      = .error (.invalidTransition "delivered" "processing") :=
  ⟨by decide,
   (updateStatus_invalidTransition_iff (sampleOrder "delivered") (sampleDbWith "delivered")
      "processing" "" 5 (by decide)).1.2 (by decide)⟩

/-- C2 (evaluation at the failing input): the stored order `sampleGiftOrder` passes schema
validation and carries gift wrap 5.00 with total 37.00 = 20 + 10 + 2 + 5, the total `createOrder`
computes for these amounts (line 62). After `updateOrderStatus` to confirmed, whose save
completes, the stored order has total 32.00: the `pre('save')` hook recomputes the total
without `giftWrapCost`. -/
theorem save_total_omits_giftWrap :
    sampleGiftOrder.validate = true ∧
    ∃ o' db', updateOrderStatus sampleGiftDb 0 "confirmed" none none none 5 = (.ok o', db') ∧
      o' ∈ db'.orders ∧ o'.validate = true ∧ o'.subtotal = 20 ∧ o'.shippingCost = 10 ∧
      o'.tax = 2 ∧ o'.giftWrapCost = 5 ∧ o'.discount = 0 ∧ o'.total = 32 ∧
      max 0 (o'.subtotal + o'.shippingCost + o'.tax + o'.giftWrapCost - o'.discount) = 37 ∧
      createOrderTotal 20 10 2 (some 5) = 37 := by
  refine ⟨?_, _, _, rfl, ?_, ?_, ?_, ?_, ?_, ?_, ?_, ?_, ?_, ?_⟩
  all_goals simp [Order.validate, OrderItem.validate, ShippingAddress.validate,
    paymentMethodValues, paymentStatusValues, orderStatusValues, sampleGiftDb, sampleGiftOrder,
    sampleOrder, sampleAddress, save, preSaveTotals, preSaveOrderNumber, itemsSubtotal,
    Db.putOrder, createOrderTotal]
  all_goals norm_num

/-- C3: every save recomputes `subtotal` as the sum over the line items of price times
quantity, whatever subtotal the document carried: this holds for `save` itself and for the
order returned by a successful `createOrder`, `updateStatus`, `cancel`, `addTracking` and
`processRefund`. -/
theorem subtotal_eq_lineSum_after_save :
    (∀ (db : Db) (o : Order) (isNew : Bool) (now : Nat),
      (save db o isNew now).1.subtotal = specLineSum (save db o isNew now).1.items) ∧
    (∀ (db db' : Db) (user : User) (req : CreateOrderRequest) (now : Nat) (o : Order),
      createOrder db user req now = (.ok o, db') → o.subtotal = specLineSum o.items) ∧
    (∀ (o o' : Order) (db db' : Db) (t notes : String) (now : Nat),
      o.updateStatus db t notes now = .ok (o', db') → o'.subtotal = specLineSum o'.items) ∧
    (∀ (o o' : Order) (db db' : Db) (reason : String) (now : Nat),
      o.cancel db reason now = .ok (o', db') → o'.subtotal = specLineSum o'.items) ∧
    (∀ (o o' : Order) (db db' : Db) (trackingNumber trackingUrl : String) (now : Nat),
      o.addTracking db trackingNumber trackingUrl now = .ok (o', db') →
        o'.subtotal = specLineSum o'.items) ∧
    (∀ (db db' : Db) (orderId : Nat) (refundAmount : ℚ) (reason : Option String) (now : Nat)
        (o' : Order),
      processRefund db orderId refundAmount reason now = (.ok o', db') →
        o'.subtotal = specLineSum o'.items) := by
  have key : ∀ (db : Db) (o : Order) (isNew : Bool) (now : Nat),
      (save db o isNew now).1.subtotal = specLineSum (save db o isNew now).1.items := by
    intro db o isNew now
    rw [save_fst_subtotal, save_fst_items]
  refine ⟨key, ?_, ?_, ?_, ?_, ?_⟩
  · intro db db' user req now o h
    exact absurd h (createOrder_not_ok db db' user req now o)
  · intro o o' db db' t notes now h
    unfold Order.updateStatus at h
    split at h
    · simp at h
    · split at h
      · simp at h
      · exact subtotal_of_save_eq (Except.ok.inj h)
  · intro o o' db db' reason now h
    unfold Order.cancel at h
    split at h
    · simp at h
    · exact subtotal_of_save_eq (Except.ok.inj h)
  · intro o o' db db' trackingNumber trackingUrl now h
    unfold Order.addTracking at h
    split at h
    · simp at h
    · exact subtotal_of_save_eq (Except.ok.inj h)
  · intro db db' orderId refundAmount reason now o' h
    unfold processRefund at h
    split at h
    · simp at h
    · split at h
      · simp at h
      · split at h
        · simp at h
        · next hsave =>
          obtain ⟨_, hr⟩ := saveValidated_ok _ _ _ _ _ hsave
          have h1 := Except.ok.inj (Prod.mk.inj h).1
          rw [← h1]
          exact subtotal_of_save_eq hr.symm

/-- Witness for C3: a stored order whose subtotal field was tampered to 999 comes back from a
successful `updateStatus` with subtotal 20 = 10.00 x 2. -/
theorem subtotal_eq_lineSum_after_save_witness :
    ∃ o' db', ({ sampleOrder "pending" with subtotal := 999 } : Order).updateStatus
        (sampleDbWith "pending") "confirmed" "" 5 = .ok (o', db') ∧
      o'.subtotal = specLineSum o'.items ∧ o'.subtotal = 20 :=
  ⟨_, _, rfl,
    subtotal_eq_lineSum_after_save.2.2.1 { sampleOrder "pending" with subtotal := 999 } _
      (sampleDbWith "pending") _ "confirmed" "" 5 rfl,
    by simp [save, preSaveTotals, preSaveOrderNumber, itemsSubtotal, sampleOrder]; norm_num⟩

/-- C4: starting from a catalog in which no item has negative stock, after any sequence of
`createOrder`, `cancelOrder` and `updateOrderStatus` requests handled one at a time no item has
negative stock. The requests are arbitrary, so a `createOrder` request that lists one item on
several lines is included: `createOrder` leaves the catalog as it found it (the request is
refused before the stock loop is reached), `updateOrderStatus` never writes to the catalog and
`cancelOrder` only adds line quantities back. -/
theorem stock_nonneg_invariant (db : Db) (reqs : List (Nat × ShopRequest))
    (h : ∀ id b, db.books id = some b → 0 ≤ b.stock) :
    ∀ id b, (runRequests db reqs).books id = some b → 0 ≤ b.stock := by
  induction reqs generalizing db with
  | nil => exact h
  | cons r rest ih =>
    simp only [runRequests, List.foldl_cons]
    exact ih (applyRequest db r.1 r.2) (applyRequest_stock_nonneg db r.1 r.2 h)

/-- Witness for C4: item 1 has stock 3 and a pending order of 2 units is stored; a `createOrder`
request with two lines of 2 units of item 1, then `cancelOrder` of the stored order, then
`updateOrderStatus` to cancelled leave no negative stock (item 1 ends at 5). -/
theorem stock_nonneg_invariant_witness :
    (∀ id b, (sampleDbWith "pending").books id = some b → 0 ≤ b.stock) ∧
    (∀ id b, (runRequests (sampleDbWith "pending")
        [(1, .create sampleUser (sampleRequest (some [⟨1, 2⟩, ⟨1, 2⟩]) none)),
         (2, .cancel sampleUser 0 none),
         (3, .updateStatus 0 "cancelled" none none none)]).books id = some b → 0 ≤ b.stock) ∧
    ((runRequests (sampleDbWith "pending")
        [(1, .create sampleUser (sampleRequest (some [⟨1, 2⟩, ⟨1, 2⟩]) none)),
         (2, .cancel sampleUser 0 none),
         (3, .updateStatus 0 "cancelled" none none none)]).books 1).map (fun b => b.stock)
      = some 5 :=
  ⟨sampleBooks_stock_nonneg _,
    stock_nonneg_invariant (sampleDbWith "pending") _ (sampleBooks_stock_nonneg _),
    by decide⟩

/-- C5: when `createOrder` answers with an error, the database it leaves is the one it started
from: no order was added and every catalog record, stock included, is unchanged, whichever line
of the request is the offending one. The errors it gives are the empty-order, item-not-found and
insufficient-stock errors of the two checks and, for a request whose lines all passed the
checks, the validation error of `Order.create`. -/
theorem createOrder_failure_leaves_db (db db' : Db) (user : User) (req : CreateOrderRequest)
    (now : Nat) (e : OrderError) (h : createOrder db user req now = (.error e, db')) :
    db'.orders = db.orders ∧ (∀ id, db'.books id = db.books id) ∧
    (e = .emptyOrder ∨ (∃ id, e = .bookNotFound id) ∨
      (∃ title available, e = .insufficientStock title available) ∨
      (e = .validationError ∧ ∃ items subtotal lines, req.items = some items ∧ items ≠ [] ∧
        checkItems db items 0 [] = .ok (subtotal, lines))) := by
  have hdb : db' = db := by
    have h2 := createOrder_snd db user req now
    rw [h] at h2
    exact h2
  subst hdb
  refine ⟨rfl, fun _ => rfl, ?_⟩
  rcases createOrder_cases db' user req now with h1 | ⟨id, h1⟩ | ⟨t, a, h1⟩ | ⟨h1, hrest⟩
  · rw [h1] at h
    exact Or.inl (Except.error.inj (Prod.mk.inj h).1).symm
  · rw [h1] at h
    exact Or.inr (Or.inl ⟨id, (Except.error.inj (Prod.mk.inj h).1).symm⟩)
  · rw [h1] at h
    exact Or.inr (Or.inr (Or.inl ⟨t, a, (Except.error.inj (Prod.mk.inj h).1).symm⟩))
  · rw [h1] at h
    exact Or.inr (Or.inr (Or.inr ⟨(Except.error.inj (Prod.mk.inj h).1).symm, hrest⟩))

/-- Witness for C5: with stock 3, the first line (2 units) is accepted and the last line
(5 units) is rejected for stock; the database is unchanged. -/
theorem createOrder_failure_leaves_db_witness :
    createOrder sampleDb sampleUser (sampleRequest (some [⟨1, 2⟩, ⟨1, 5⟩]) none) 0
      = (.error (.insufficientStock "Atlas" 3), sampleDb) ∧
    sampleDb.orders = sampleDb.orders ∧ (∀ id, sampleDb.books id = sampleDb.books id) :=
  ⟨rfl,
    (createOrder_failure_leaves_db sampleDb sampleDb sampleUser
      (sampleRequest (some [⟨1, 2⟩, ⟨1, 5⟩]) none) 0 (.insufficientStock "Atlas" 3) rfl).1,
    (createOrder_failure_leaves_db sampleDb sampleDb sampleUser
      (sampleRequest (some [⟨1, 2⟩, ⟨1, 5⟩]) none) 0 (.insufficientStock "Atlas" 3) rfl).2.1⟩

/-- C6: outcome of `createOrder`. An absent or empty line list gives the empty-order error.
Otherwise the lines are scanned in request order: when every line before line `l` is accepted
(item present, active, quantity at most the stock), a missing or inactive item on `l` gives
the not-found error for that line whatever its quantity, and a present, active item with
stock below the quantity gives the insufficient-stock error. When every line is accepted,
quantity equal to the stock included, the request is not rejected by these checks: the answer
is none of the empty-order, not-found and insufficient-stock errors. -/
theorem createOrder_outcome (db : Db) (user : User) (req : CreateOrderRequest) (now : Nat) :
    ((req.items = none ∨ req.items = some []) →
      createOrder db user req now = (.error .emptyOrder, db)) ∧
    (∀ pre l post, req.items = some (pre ++ l :: post) → (∀ x ∈ pre, lineAccepted db x) →
      ((db.books l.book = none ∨ ∃ b, db.books l.book = some b ∧ b.isActive = false) →
        createOrder db user req now = (.error (.bookNotFound l.book), db)) ∧
      (∀ b, db.books l.book = some b → b.isActive = true → b.stock < (l.quantity : Int) →
        createOrder db user req now = (.error (.insufficientStock b.title b.stock), db))) ∧
    (∀ items, req.items = some items → items ≠ [] → (∀ x ∈ items, lineAccepted db x) →
      (createOrder db user req now).1 ≠ .error .emptyOrder ∧
      (∀ id, (createOrder db user req now).1 ≠ .error (.bookNotFound id)) ∧
      ∀ title available,
        (createOrder db user req now).1 ≠ .error (.insufficientStock title available)) := by
  refine ⟨?_, ?_, ?_⟩
  · rintro (h | h) <;> simp [createOrder, h]
  · intro pre l post hitems hpre
    have hlen : ¬ (pre ++ l :: post).length = 0 := by simp
    obtain ⟨s', a', hc⟩ := checkItems_append_accepted db pre (l :: post) hpre 0 []
    refine ⟨?_, ?_⟩
    · rintro (hb | ⟨b, hb, hact⟩)
      · simp [createOrder, hitems, hc, checkItems, Db.findBook, hb]
      · simp [createOrder, hitems, hc, checkItems, Db.findBook, hb, hact]
    · intro b hb hact hlt
      simp [createOrder, hitems, hc, checkItems, Db.findBook, hb, hact, hlt]
  · intro items hitems hne hall
    rw [createOrder_accepted db user req now items hitems hne hall]
    simp

/-- Witness for C6: stock is 3; a line of exactly 3 units is accepted, and a second line that
names the unknown item 9 is answered with the not-found error for item 9. -/
theorem createOrder_outcome_witness :
    (∀ x ∈ [(⟨1, 3⟩ : OrderItemRequest)], lineAccepted sampleDb x) ∧
    createOrder sampleDb sampleUser (sampleRequest (some [⟨1, 3⟩, ⟨9, 50⟩]) none) 0
      = (.error (.bookNotFound 9), sampleDb) :=
  have hacc : ∀ x ∈ [(⟨1, 3⟩ : OrderItemRequest)], lineAccepted sampleDb x := by
    intro x hx
    rw [List.mem_singleton] at hx
    subst hx
    exact ⟨sampleBook, rfl, rfl, by decide⟩
  ⟨hacc,
    ((createOrder_outcome sampleDb sampleUser (sampleRequest (some [⟨1, 3⟩, ⟨9, 50⟩]) none)
        0).2.1 [⟨1, 3⟩] ⟨9, 50⟩ [] rfl hacc).1 (Or.inl rfl)⟩

/-- C7 (evaluation at the failing input): item 1 has stock 3 and the request asks for 1 and 2
units of it on two lines, so both lines pass the checks and the lines name 3 units in all. The
handler answers with the validation error of `Order.create` (the new document carries no
`orderNumber`, which the schema requires), no order is stored and the stock of item 1 is still
3, not 0. The same holds for every request: `createOrder` never succeeds and never changes the
database, so the loop under the comment "Update book stock" is never reached. -/
theorem createOrder_never_decrements_stock :
    (∀ x ∈ [(⟨1, 1⟩ : OrderItemRequest), ⟨1, 2⟩], lineAccepted sampleDb x) ∧
    requestedQuantity [⟨1, 1⟩, ⟨1, 2⟩] 1 = 3 ∧
    createOrder sampleDb sampleUser (sampleRequest (some [⟨1, 1⟩, ⟨1, 2⟩]) none) 0
      = (.error .validationError, sampleDb) ∧
    sampleDb.orders = [] ∧ (sampleDb.books 1).map (fun b => b.stock) = some 3 ∧
    (∀ (db : Db) (user : User) (req : CreateOrderRequest) (now : Nat),
      (createOrder db user req now).2 = db ∧
      ∀ o, (createOrder db user req now).1 ≠ .ok o) := by
  refine ⟨?_, by decide, rfl, rfl, by decide, ?_⟩
  · intro x hx
    simp only [List.mem_cons, List.mem_singleton, List.not_mem_nil, or_false] at hx
    rcases hx with rfl | rfl
    · exact ⟨sampleBook, rfl, rfl, by decide⟩
    · exact ⟨sampleBook, rfl, rfl, by decide⟩
  · intro db user req now
    refine ⟨createOrder_snd db user req now, ?_⟩
    intro o ho
    exact createOrder_not_ok db db user req now o
      (Prod.ext ho (createOrder_snd db user req now))

/-- C8: `Order.cancel` succeeds exactly when the status is pending, confirmed or processing,
and for shipped, delivered, cancelled and returned it throws the not-cancellable error. The
`cancelOrder` handler, for an order its query finds for the caller, succeeds for the same three
statuses and answers the four others with the not-cancellable error, leaving the database as
it was. -/
theorem cancel_succeeds_iff (o : Order) (db : Db) (user : User) (orderId : Nat)
    (reason : Option String) (now : Nat) :
    ((∃ r, o.cancel db (reason.getD "") now = .ok r) ↔
      o.orderStatus ∈ ["pending", "confirmed", "processing"]) ∧
    (o.orderStatus ∈ ["shipped", "delivered", "cancelled", "returned"] →
      o.cancel db (reason.getD "") now = .error .cannotBeCancelled) ∧
    (db.findOrderFor user orderId = some o →
      ((∃ o' db', cancelOrder db user orderId reason now = (.ok o', db')) ↔
        o.orderStatus ∈ ["pending", "confirmed", "processing"]) ∧
      (o.orderStatus ∈ ["shipped", "delivered", "cancelled", "returned"] →
        cancelOrder db user orderId reason now = (.error .notCancellable, db))) := by
  have hfour : o.orderStatus ∈ ["shipped", "delivered", "cancelled", "returned"] →
      ¬ o.orderStatus ∈ ["pending", "confirmed", "processing"] := by
    intro h4 h3
    simp only [List.mem_cons, List.mem_singleton, List.not_mem_nil, or_false] at h4 h3
    rcases h4 with h | h | h | h <;> rw [h] at h3 <;> simp at h3
  refine ⟨cancel_ok_iff o db _ now, ?_, ?_⟩
  · intro h4
    have h3 := hfour h4
    simp [Order.cancel, Order.canBeCancelled, h3]
  · intro hfind
    refine ⟨?_, ?_⟩
    · by_cases h3 : o.orderStatus ∈ ["pending", "confirmed", "processing"]
      · simp [cancelOrder, hfind, Order.cancel, Order.canBeCancelled, h3]
      · simp [cancelOrder, hfind, Order.canBeCancelled, h3]
    · intro h4
      have h3 := hfour h4
      simp [cancelOrder, hfind, Order.canBeCancelled, h3]

/-- Witness for C8: customer 7 asks to cancel their shipped order and is refused. -/
theorem cancel_succeeds_iff_witness :
    (sampleDbWith "shipped").findOrderFor sampleUser 0 = some (sampleOrder "shipped") ∧
    (sampleOrder "shipped").orderStatus ∈ ["shipped", "delivered", "cancelled", "returned"] ∧
    cancelOrder (sampleDbWith "shipped") sampleUser 0 none 5
      = (.error .notCancellable, sampleDbWith "shipped") :=
  ⟨rfl, by decide,
    ((cancel_succeeds_iff (sampleOrder "shipped") (sampleDbWith "shipped") sampleUser 0 none
      5).2.2 rfl).2 (by decide)⟩

/-- C9: after a successful `cancelOrder` the returned order, which is the stored one, has
status cancelled, `cancelledAt` equal to the time of the call and `cancellationReason` equal to
the given reason (the empty string when none was given); the record of every catalog item is
the old record with its stock raised by exactly the sum of the quantities of the order lines
that name it, and an item no line names keeps its record. -/
theorem cancelOrder_success (db db' : Db) (user : User) (orderId : Nat)
    (reason : Option String) (now : Nat) (o' : Order)
    (h : cancelOrder db user orderId reason now = (.ok o', db')) :
    o'.orderStatus = "cancelled" ∧ o'.cancelledAt = some now ∧
    o'.cancellationReason = some (reason.getD "") ∧ o' ∈ db'.orders ∧
    ∃ o, db.findOrderFor user orderId = some o ∧ o'.items = o.items ∧
      ∀ id,
        db'.books id = (db.books id).map
          (fun b => { b with stock := b.stock + orderedQuantity o.items id }) ∧
        ((∀ l ∈ o.items, l.book ≠ id) → db'.books id = db.books id) := by
  unfold cancelOrder at h
  split at h
  · simp at h
  · next o hfind =>
    split at h
    · simp at h
    · split at h
      · simp at h
      · next order1 db1 hc =>
        obtain ⟨hs, hat, hr, hitems, hid, hbk, hord⟩ := cancel_ok_spec _ _ _ _ _ _ hc
        obtain ⟨h1, h2⟩ := Prod.mk.inj h
        have ho : order1 = o' := Except.ok.inj h1
        subst ho
        subst h2
        have hmem : o ∈ db.orders := List.mem_of_find?_eq_some hfind
        have hb : ∀ id, (restoreStock db1 order1.items).books id = (db.books id).map
            (fun b => { b with stock := b.stock + orderedQuantity o.items id }) := by
          intro id
          rw [restoreStock_books, hbk, hitems]
        refine ⟨hs, hat, hr, ?_, o, hfind, hitems, ?_⟩
        · rw [restoreStock_orders, hord, List.mem_map]
          exact ⟨o, hmem, by simp [hid]⟩
        · intro id
          refine ⟨hb id, ?_⟩
          intro hno
          have hz : orderedQuantity o.items id = 0 := by
            have hf : o.items.filter (fun l => decide (l.book = id)) = [] := by
              rw [List.filter_eq_nil_iff]
              intro l hl
              simpa using hno l hl
            simp [orderedQuantity, hf]
          rw [hb id, hz]
          cases db.books id <;> simp

/-- Witness for C9: cancelling the pending sample order (2 units of item 1, stock 3) gives
status cancelled and stock 5. -/
theorem cancelOrder_success_witness :
    ∃ o' db', cancelOrder (sampleDbWith "pending") sampleUser 0 (some "changed my mind") 5
        = (.ok o', db') ∧
      o'.orderStatus = "cancelled" ∧ o'.cancelledAt = some 5 ∧
      o'.cancellationReason = some "changed my mind" ∧
      (db'.books 1).map (fun b => b.stock) = some 5 :=
  ⟨_, _, rfl,
    (cancelOrder_success (sampleDbWith "pending") _ sampleUser 0 (some "changed my mind") 5 _
      rfl).1,
    (cancelOrder_success (sampleDbWith "pending") _ sampleUser 0 (some "changed my mind") 5 _
      rfl).2.1,
    (cancelOrder_success (sampleDbWith "pending") _ sampleUser 0 (some "changed my mind") 5 _
      rfl).2.2.1,
    by decide⟩

/-- C10 (evaluation at the failing input): `updateOrderStatus` never changes a catalog record.
The pending sample order (2 units of item 1, stock 3) moved to cancelled through
`updateOrderStatus` ends with status cancelled and stock still 3, where `cancelOrder` on the
same order leaves stock 5. -/
theorem updateOrderStatus_cancelled_keeps_stock :
    (∀ (db : Db) (orderId : Nat) (status : String) (notes trackingNumber trackingUrl : Option String)
        (now : Nat),
      (updateOrderStatus db orderId status notes trackingNumber trackingUrl now).2.books
        = db.books) ∧
    (∃ o' db', updateOrderStatus (sampleDbWith "pending") 0 "cancelled" none none none 5
        = (.ok o', db') ∧
      o'.orderStatus = "cancelled" ∧
      o'.items.map (fun i => (i.book, i.quantity)) = [(1, 2)] ∧
      ((sampleDbWith "pending").books 1).map (fun b => b.stock) = some 3 ∧
      (db'.books 1).map (fun b => b.stock) = some 3) ∧
    (∃ o' db', cancelOrder (sampleDbWith "pending") sampleUser 0 none 5 = (.ok o', db') ∧
      (db'.books 1).map (fun b => b.stock) = some 5) := by
  refine ⟨?_, ⟨_, _, rfl, by decide, by decide, by decide, by decide⟩, ⟨_, _, rfl, by decide⟩⟩
  intro db orderId status notes trackingNumber trackingUrl now
  unfold updateOrderStatus
  split
  · rfl
  · split
    · rfl
    · next order1 db1 hu =>
      have h1 : db1.books = db.books := by
        unfold Order.updateStatus at hu
        split at hu
        · simp at hu
        · split at hu
          · simp at hu
          · have := congrArg Prod.snd (Except.ok.inj hu)
            simp only at this
            rw [← this, save_snd_books]
      split
      · split
        · exact h1
        · next order2 db2 ha =>
          unfold Order.addTracking at ha
          split at ha
          · simp at ha
          · have := congrArg Prod.snd (Except.ok.inj ha)
            simp only at this
            show db2.books = db.books
            rw [← this, save_snd_books, h1]
      · exact h1

/-- C11 (evaluation at the failing input): the catalog holds item 1 at 10.00, item 2 at 5.00
and item 3 at 30.00. For the lines (10.00 x 2, 5.00 x 1) the first loop of `createOrder` gives
the subtotal 25 and the document handed to `Order.create` carries subtotal 25, shipping 9.99,
tax 2 and total 36.99; for the single line 30 x 2 the subtotal is 60 and the document carries
shipping 0, tax 4.8 and total 64.8. Neither document is stored: both requests are answered with
the validation error of `Order.create` (no `orderNumber`) and the order collection stays
empty. -/
theorem createOrder_totals_not_stored :
    (∃ lines, checkItems sampleCatalog [⟨1, 2⟩, ⟨2, 1⟩] 0 [] = .ok (25, lines) ∧
      specRequestSum sampleCatalog [⟨1, 2⟩, ⟨2, 1⟩] = 25 ∧
      (createOrderDocument sampleCatalog sampleUser
        (sampleRequest (some [⟨1, 2⟩, ⟨2, 1⟩]) none) 25 lines).subtotal = 25 ∧
      (createOrderDocument sampleCatalog sampleUser
        (sampleRequest (some [⟨1, 2⟩, ⟨2, 1⟩]) none) 25 lines).shippingCost = 9.99 ∧
      (createOrderDocument sampleCatalog sampleUser
        (sampleRequest (some [⟨1, 2⟩, ⟨2, 1⟩]) none) 25 lines).tax = 2 ∧
      (createOrderDocument sampleCatalog sampleUser
        (sampleRequest (some [⟨1, 2⟩, ⟨2, 1⟩]) none) 25 lines).total = 36.99) ∧
    createOrder sampleCatalog sampleUser (sampleRequest (some [⟨1, 2⟩, ⟨2, 1⟩]) none) 0
      = (.error .validationError, sampleCatalog) ∧
    (∃ lines, checkItems sampleCatalog [⟨3, 2⟩] 0 [] = .ok (60, lines) ∧
      specRequestSum sampleCatalog [⟨3, 2⟩] = 60 ∧
      (createOrderDocument sampleCatalog sampleUser
        (sampleRequest (some [⟨3, 2⟩]) none) 60 lines).subtotal = 60 ∧
      (createOrderDocument sampleCatalog sampleUser
        (sampleRequest (some [⟨3, 2⟩]) none) 60 lines).shippingCost = 0 ∧
      (createOrderDocument sampleCatalog sampleUser
        (sampleRequest (some [⟨3, 2⟩]) none) 60 lines).tax = 4.8 ∧
      (createOrderDocument sampleCatalog sampleUser
        (sampleRequest (some [⟨3, 2⟩]) none) 60 lines).total = 64.8) ∧
    createOrder sampleCatalog sampleUser (sampleRequest (some [⟨3, 2⟩]) none) 0
      = (.error .validationError, sampleCatalog) ∧
    sampleCatalog.orders = [] := by
  refine ⟨⟨[⟨1, "Atlas", "A. Writer", 10, 2, none⟩, ⟨2, "Pencil", "B. Maker", 5, 1, none⟩],
      ?_, ?_, ?_, ?_, ?_, ?_⟩, rfl,
    ⟨[⟨3, "Globe", "C. Maker", 30, 2, none⟩], ?_, ?_, ?_, ?_, ?_, ?_⟩, rfl, rfl⟩
  all_goals simp [checkItems, Db.findBook, sampleCatalog, sampleBook, specRequestSum,
    createOrderDocument, Order.new, createOrderShipping, createOrderTax, createOrderTotal,
    sampleRequest]
  all_goals norm_num

/-- C12: the shipping cost that `createOrder` computes from the subtotal of its first loop and
writes into the order document is 0 exactly when that subtotal is strictly greater than 50 and
9.99 exactly when it is at most 50; it is never another value, and a subtotal of exactly 50 is
charged 9.99. The document carries the same subtotal. -/
theorem createOrder_shippingCost (db : Db) (user : User) (req : CreateOrderRequest)
    (subtotal : ℚ) (lines : List OrderItem) :
    (createOrderDocument db user req subtotal lines).subtotal = subtotal ∧
    (createOrderDocument db user req subtotal lines).shippingCost
      = createOrderShipping subtotal ∧
    (createOrderShipping subtotal = 0 ↔ subtotal > 50) ∧
    (createOrderShipping subtotal = 9.99 ↔ subtotal ≤ 50) ∧
    (createOrderShipping subtotal = 0 ∨ createOrderShipping subtotal = 9.99) ∧
    (subtotal = 50 → (createOrderDocument db user req subtotal lines).shippingCost = 9.99) := by
  refine ⟨rfl, rfl, ?_, ?_, ?_, ?_⟩
  · unfold createOrderShipping
    split
    · next h => simp [h]
    · next h => norm_num [h]
  · unfold createOrderShipping
    split
    · next h => norm_num [not_le.mpr h]
    · next h => simp [not_lt.mp h]
  · unfold createOrderShipping
    split
    · exact Or.inl rfl
    · exact Or.inr rfl
  · intro h
    subst h
    show createOrderShipping 50 = 9.99
    unfold createOrderShipping
    norm_num

/-- Witness for C12: ten units at 5.00 make a subtotal of exactly 50 in the first loop, and the
document built from it is charged 9.99. -/
theorem createOrder_shippingCost_witness :
    ∃ lines, checkItems sampleCatalog [⟨2, 10⟩] 0 [] = .ok (50, lines) ∧
      (createOrderDocument sampleCatalog sampleUser (sampleRequest (some [⟨2, 10⟩]) none)
        50 lines).shippingCost = 9.99 :=
  ⟨[⟨2, "Pencil", "B. Maker", 5, 10, none⟩],
    by simp [checkItems, Db.findBook, sampleCatalog]; norm_num,
    (createOrder_shippingCost sampleCatalog sampleUser (sampleRequest (some [⟨2, 10⟩]) none)
      50 _).2.2.2.2.2 rfl⟩

/-- C13: for a stored order that satisfies the schema, with total `T`, `processRefund` with an
amount equal to `T`, or above 0 and below `T`, succeeds; it records `refundAmount`,
`refundReason` and `refundedAt`, leaves `orderStatus` unchanged and stores the result; the
payment status becomes refunded when the amount equals `T` and partially_refunded when it is
below `T`. -/
theorem processRefund_success (db : Db) (orderId : Nat) (o : Order) (refundAmount : ℚ)
    (reason : Option String) (now : Nat) (hfind : db.findOrderById orderId = some o)
    (hvalid : o.validate = true)
    (hamt : refundAmount = o.total ∨ (0 < refundAmount ∧ refundAmount < o.total)) :
    ∃ o' db', processRefund db orderId refundAmount reason now = (.ok o', db') ∧
      o'.refundAmount = refundAmount ∧ o'.refundReason = reason ∧ o'.refundedAt = some now ∧
      o'.orderStatus = o.orderStatus ∧
      (refundAmount = o.total → o'.paymentStatus = "refunded") ∧
      (refundAmount < o.total → o'.paymentStatus = "partially_refunded") ∧
      o' ∈ db'.orders := by
  have htotal : 0 ≤ o.total := by
    have hv := hvalid
    simp only [Order.validate, Bool.and_eq_true, decide_eq_true_eq] at hv
    exact hv.1.1.1.1.2
  have hle : refundAmount ≤ o.total := by
    rcases hamt with h | ⟨_, h⟩
    · exact le_of_eq h
    · exact le_of_lt h
  have hnn : 0 ≤ refundAmount := by
    rcases hamt with h | ⟨h, _⟩
    · rw [h]; exact htotal
    · exact le_of_lt h
  have hdoc := refundDocument_validate o refundAmount reason now hvalid hnn
  have hex : ∃ o' db', processRefund db orderId refundAmount reason now = (.ok o', db') := by
    unfold processRefund
    simp only [hfind, gt_iff_lt, if_neg (not_lt.mpr hle), saveValidated, hdoc, if_true]
    exact ⟨_, _, rfl⟩
  obtain ⟨o', db', h⟩ := hex
  obtain ⟨o2, hfind2, _, hs, hra, hrr, hrt, hps, _, _, _, hid, _, _, _, hord⟩ :=
    processRefund_ok_spec _ _ _ _ _ _ _ h
  rw [hfind] at hfind2
  obtain rfl := Option.some.inj hfind2
  refine ⟨o', db', h, hra, hrr, hrt, hs, ?_, ?_, ?_⟩
  · intro he
    rw [hps, if_pos he]
  · intro hlt
    rw [hps, if_neg (ne_of_lt hlt)]
  · rw [hord, List.mem_map]
    exact ⟨o, List.mem_of_find?_eq_some hfind, by simp [hid]⟩

/-- Witness for C13: the delivered sample order (total 31.59) refunded in full. -/
theorem processRefund_success_witness :
    (sampleDbWith "delivered").findOrderById 0 = some (sampleOrder "delivered") ∧
    (sampleOrder "delivered").validate = true ∧
    ∃ o' db', processRefund (sampleDbWith "delivered") 0 31.59 (some "damaged") 9
        = (.ok o', db') ∧
      o'.refundAmount = 31.59 ∧ o'.refundReason = some "damaged" ∧ o'.refundedAt = some 9 ∧
      o'.orderStatus = "delivered" ∧ o'.paymentStatus = "refunded" := by
  refine ⟨rfl, sampleOrder_validate "delivered" (by decide), ?_⟩
  obtain ⟨o', db', h, h1, h2, h3, h4, h5, _, _⟩ :=
    processRefund_success (sampleDbWith "delivered") 0 (sampleOrder "delivered") 31.59
      (some "damaged") 9 rfl (sampleOrder_validate "delivered" (by decide))
      (Or.inl (by simp [sampleOrder]))
  exact ⟨o', db', h, h1, h2, h3, h4, h5 (by simp [sampleOrder])⟩

/-- C14: for a stored order, `processRefund` with an amount above the order's total answers
with the refund-exceeds-total error and leaves the database as it was, so the stored order,
its payment status and refund fields included, is the one from before the call. -/
theorem processRefund_exceeds_total (db : Db) (orderId : Nat) (o : Order) (refundAmount : ℚ)
    (reason : Option String) (now : Nat) (hfind : db.findOrderById orderId = some o)
    (hgt : refundAmount > o.total) :
    processRefund db orderId refundAmount reason now = (.error .refundExceedsTotal, db) ∧
    (processRefund db orderId refundAmount reason now).2.findOrderById orderId = some o := by
  have h : processRefund db orderId refundAmount reason now
      = (.error .refundExceedsTotal, db) := by
    unfold processRefund
    simp only [hfind, if_pos hgt]
  exact ⟨h, by rw [h]; exact hfind⟩

/-- Witness for C14: a refund of 40.00 against the sample order of total 31.59 is refused. -/
theorem processRefund_exceeds_total_witness :
    (sampleDbWith "delivered").findOrderById 0 = some (sampleOrder "delivered") ∧
    (40 : ℚ) > (sampleOrder "delivered").total ∧
    processRefund (sampleDbWith "delivered") 0 40 none 9
      = (.error .refundExceedsTotal, sampleDbWith "delivered") :=
  ⟨rfl, by simp [sampleOrder]; norm_num,
    (processRefund_exceeds_total (sampleDbWith "delivered") 0 (sampleOrder "delivered") 40 none
      9 rfl (by simp [sampleOrder]; norm_num)).1⟩

/-- C15 (counterexample to the claim as written): on the shipped sample order `addTracking`
succeeds with the tracking number " TRK1 ", but the order it stores carries "TRK1": the field
does not take the given value, the schema's `trim` setter removes the surrounding blanks. -/
theorem addTracking_stores_trimmed_value :
    ∃ o' db', (sampleOrder "shipped").addTracking (sampleDbWith "shipped") " TRK1 " "" 5
        = .ok (o', db') ∧
      o' ∈ db'.orders ∧ o'.trackingNumber = some "TRK1" ∧ o'.trackingNumber ≠ some " TRK1 " := by
  refine ⟨_, _, rfl, ?_, ?_, ?_⟩
  · simp [save, Db.putOrder, sampleDbWith, preSaveOrderNumber, preSaveTotals, sampleOrder]
  · decide
  · decide

/-- C15 (amended): `addTracking` succeeds exactly when the status is shipped; on success the
tracking number and URL are the given values with leading and trailing whitespace removed,
otherwise it throws and the stored order is unchanged. No other operation writes the tracking
fields of an order that is not shipped: `updateStatus`, `cancel` and `processRefund` leave them
as they were, and `updateOrderStatus` changes them only together with a move to shipped. -/
theorem addTracking_iff_shipped (o : Order) (db : Db) (now : Nat) :
    (∀ trackingNumber trackingUrl,
      ((∃ r, o.addTracking db trackingNumber trackingUrl now = .ok r) ↔
        o.orderStatus = "shipped") ∧
      (o.orderStatus ≠ "shipped" →
        o.addTracking db trackingNumber trackingUrl now = .error .trackingNotShipped) ∧
      (∀ o' db', o.addTracking db trackingNumber trackingUrl now = .ok (o', db') →
        o'.trackingNumber = some (jsTrim trackingNumber) ∧
        o'.trackingUrl = some (jsTrim trackingUrl) ∧ o'.orderStatus = "shipped") ∧
      (∀ orderId, db.findOrderById orderId = some o → o.orderStatus ≠ "shipped" →
        applyOp db now (.addTracking orderId trackingNumber trackingUrl) = db)) ∧
    (∀ t notes o' db', o.updateStatus db t notes now = .ok (o', db') →
      o'.trackingNumber = o.trackingNumber ∧ o'.trackingUrl = o.trackingUrl) ∧
    (∀ reason o' db', o.cancel db reason now = .ok (o', db') →
      o'.trackingNumber = o.trackingNumber ∧ o'.trackingUrl = o.trackingUrl) ∧
    (∀ orderId refundAmount reason o' db', db.findOrderById orderId = some o →
      processRefund db orderId refundAmount reason now = (.ok o', db') →
      o'.trackingNumber = o.trackingNumber ∧ o'.trackingUrl = o.trackingUrl) ∧
    (∀ orderId status notes trackingNumber trackingUrl o' db',
      db.findOrderById orderId = some o →
      updateOrderStatus db orderId status notes trackingNumber trackingUrl now = (.ok o', db') →
      (o'.trackingNumber = o.trackingNumber ∧ o'.trackingUrl = o.trackingUrl) ∨
        o'.orderStatus = "shipped") := by
  refine ⟨?_, ?_, ?_, ?_, ?_⟩
  · intro trackingNumber trackingUrl
    refine ⟨?_, ?_, ?_, ?_⟩
    · by_cases hs : o.orderStatus = "shipped" <;> simp [Order.addTracking, hs]
    · intro hs
      simp [Order.addTracking, hs]
    · intro o' db' h
      obtain ⟨h0, h1, h2, h3, _⟩ := addTracking_ok_spec _ _ _ _ _ _ _ h
      exact ⟨h2, h3, by rw [h1, h0]⟩
    · intro orderId hfind hs
      simp [applyOp, hfind, Order.addTracking, hs]
  · intro t notes o' db' h
    obtain ⟨_, _, _, _, _, _, h1, h2, _⟩ := updateStatus_ok_spec _ _ _ _ _ _ _ h
    exact ⟨h1, h2⟩
  · intro reason o' db' h
    obtain ⟨_, _, _, h1, h2⟩ := cancel_ok_frame _ _ _ _ _ _ h
    exact ⟨h1, h2⟩
  · intro orderId refundAmount reason o' db' hfind h
    obtain ⟨o2, hfind2, _, _, _, _, _, _, _, _, _, _, h1, h2, _⟩ :=
      processRefund_ok_spec _ _ _ _ _ _ _ h
    rw [hfind] at hfind2
    obtain rfl := Option.some.inj hfind2
    exact ⟨h1, h2⟩
  · intro orderId status notes trackingNumber trackingUrl o' db' hfind h
    obtain ⟨o2, hfind2, _, hs, _, _, _, _, htr, _⟩ :=
      updateOrderStatus_ok_spec _ _ _ _ _ _ _ _ _ h
    rw [hfind] at hfind2
    obtain rfl := Option.some.inj hfind2
    rcases htr with htr | ⟨hsh, _⟩
    · exact Or.inl htr
    · exact Or.inr (by rw [hs, hsh])

/-- Witness for C15: tracking is refused on the processing sample order and accepted on the
shipped one, where the number " TRK1 " is stored as "TRK1". -/
theorem addTracking_iff_shipped_witness :
    (sampleOrder "processing").orderStatus ≠ "shipped" ∧
    (sampleOrder "processing").addTracking (sampleDbWith "processing") " TRK1 " "" 5
      = .error .trackingNotShipped ∧
    ∃ o' db', (sampleOrder "shipped").addTracking (sampleDbWith "shipped") " TRK1 " "" 5
        = .ok (o', db') ∧
      o'.trackingNumber = some (jsTrim " TRK1 ") ∧ jsTrim " TRK1 " = "TRK1" :=
  ⟨by decide,
    ((addTracking_iff_shipped (sampleOrder "processing") (sampleDbWith "processing") 5).1
      " TRK1 " "").2.1 (by decide),
    _, _, rfl,
    (((addTracking_iff_shipped (sampleOrder "shipped") (sampleDbWith "shipped") 5).1
      " TRK1 " "").2.2.1 _ _ rfl).1,
    by decide⟩

/-- C16: a rejected `updateOrderStatus` (invalid transition) or `cancelOrder` (order not
cancellable) returns the database it was given, and a rejected `addTracking` leaves it as it
was: no field of any stored order and no catalog record changes. For a stored order the
rejections are exactly the invalid-transition and not-cancellable answers. -/
theorem rejected_operation_leaves_db (db : Db) (now : Nat) :
    (∀ orderId status notes trackingNumber trackingUrl e db',
      updateOrderStatus db orderId status notes trackingNumber trackingUrl now = (.error e, db') →
      db' = db) ∧
    (∀ user orderId reason e db',
      cancelOrder db user orderId reason now = (.error e, db') → db' = db) ∧
    (∀ orderId o trackingNumber trackingUrl, db.findOrderById orderId = some o →
      o.orderStatus ≠ "shipped" →
      o.addTracking db trackingNumber trackingUrl now = .error .trackingNotShipped ∧
      applyOp db now (.addTracking orderId trackingNumber trackingUrl) = db) ∧
    (∀ orderId o status notes trackingNumber trackingUrl allowed,
      db.findOrderById orderId = some o → validTransitions o.orderStatus = some allowed →
      status ∉ allowed →
      updateOrderStatus db orderId status notes trackingNumber trackingUrl now
        = (.error (.invalidTransition o.orderStatus status), db)) ∧
    (∀ user orderId o reason, db.findOrderFor user orderId = some o →
      o.canBeCancelled = false →
      cancelOrder db user orderId reason now = (.error .notCancellable, db)) := by
  refine ⟨?_, ?_, ?_, ?_, ?_⟩
  · intro orderId status notes trackingNumber trackingUrl e db' h
    exact updateOrderStatus_error_db _ _ _ _ _ _ _ _ _ h
  · intro user orderId reason e db' h
    exact cancelOrder_error_db _ _ _ _ _ _ _ h
  · intro orderId o trackingNumber trackingUrl hfind hs
    exact ⟨by simp [Order.addTracking, hs], by simp [applyOp, hfind, Order.addTracking, hs]⟩
  · intro orderId o status notes trackingNumber trackingUrl allowed hfind hv hnot
    simp [updateOrderStatus, hfind, Order.updateStatus, hv, hnot]
  · intro user orderId o reason hfind hc
    simp [cancelOrder, hfind, hc]

/-- Witness for C16: asking the delivered sample order to go back to processing is rejected
and the database is the one from before the call. -/
theorem rejected_operation_leaves_db_witness :
    (sampleDbWith "delivered").findOrderById 0 = some (sampleOrder "delivered") ∧
    validTransitions (sampleOrder "delivered").orderStatus = some ["returned"] ∧
    "processing" ∉ ["returned"] ∧
    updateOrderStatus (sampleDbWith "delivered") 0 "processing" none none none 5
      = (.error (.invalidTransition "delivered" "processing"), sampleDbWith "delivered") :=
  ⟨rfl, by decide, by decide,
    (rejected_operation_leaves_db (sampleDbWith "delivered") 5).2.2.2.1 0
      (sampleOrder "delivered") "processing" none none none ["returned"] rfl (by decide)
      (by decide)⟩

/-- C17: cancelled and returned are terminal. In a database whose order ids are distinct, if
the stored order with a given id has status cancelled or returned, then after any sequence of
`updateOrderStatus`, `cancelOrder`, `addTracking` and `processRefund` requests (against this
or any other order) the order with that id is still stored with the same status. -/
theorem terminal_status_is_final (db : Db) (ops : List (Nat × OrderOp)) (id : Nat) (o : Order)
    (hnd : (db.orders.map (fun x => x._id)).Nodup) (hfind : db.findOrderById id = some o)
    (hterm : o.orderStatus = "cancelled" ∨ o.orderStatus = "returned") :
    ∃ o', (runOps db ops).findOrderById id = some o' ∧ o'.orderStatus = o.orderStatus := by
  induction ops generalizing db o with
  | nil => exact ⟨o, hfind, rfl⟩
  | cons op rest ih =>
    obtain ⟨o1, hfind1, _, _, _, hst⟩ := applyOp_find db op.1 op.2 id o hnd hfind
    have hs1 : o1.orderStatus = o.orderStatus := by
      rcases hst with h | ⟨allowed, hv, hmem⟩ | ⟨hc, _⟩
      · exact h
      · exfalso
        rcases hterm with ht | ht <;> rw [ht] at hv <;>
          simp [validTransitions] at hv <;> rw [hv] at hmem <;> simp at hmem
      · exfalso
        rcases hterm with ht | ht <;> simp [Order.canBeCancelled, ht] at hc
    have hnd1 : ((applyOp db op.1 op.2).orders.map (fun x => x._id)).Nodup := by
      rw [applyOp_ids]; exact hnd
    obtain ⟨o', hf', hs'⟩ := ih (applyOp db op.1 op.2) o1 hnd1 hfind1 (by rw [hs1]; exact hterm)
    exact ⟨o', by simpa [runOps] using hf', by rw [hs', hs1]⟩

/-- Witness for C17: the cancelled sample order stays cancelled through a status update, a
cancellation, a tracking call and a refund. -/
theorem terminal_status_is_final_witness :
    ((sampleDbWith "cancelled").orders.map (fun x => x._id)).Nodup ∧
    (sampleDbWith "cancelled").findOrderById 0 = some (sampleOrder "cancelled") ∧
    ∃ o', (runOps (sampleDbWith "cancelled")
        [(1, .updateStatus 0 "pending" none none none), (2, .cancel sampleUser 0 none),
         (3, .addTracking 0 "TRK1" ""), (4, .refund 0 5 none)]).findOrderById 0 = some o' ∧
      o'.orderStatus = "cancelled" :=
  ⟨by decide, rfl,
    terminal_status_is_final (sampleDbWith "cancelled") _ 0 (sampleOrder "cancelled")
      (by decide) rfl (Or.inl rfl)⟩

/-- C18: order numbers generated by the first `pre('save')` hook for new documents differ
whenever the document counts differ, whatever the two creation times (equal times included)
and however large the counts. Hence two orders created by `createOrder` at different
collection sizes have different order numbers, and since a creation grows the collection by
one and lifecycle requests keep its size, an order created later, after any lifecycle requests,
never repeats the number of an earlier one. -/
theorem orderNumber_unique :
    (∀ (o1 o2 : Order) (count1 count2 now1 now2 : Nat),
      (o1.orderNumber = none ∨ o1.orderNumber = some "") →
      (o2.orderNumber = none ∨ o2.orderNumber = some "") → count1 ≠ count2 →
      (preSaveOrderNumber o1 true count1 now1).orderNumber ≠ none ∧
      (preSaveOrderNumber o1 true count1 now1).orderNumber
        ≠ (preSaveOrderNumber o2 true count2 now2).orderNumber) ∧
    (∀ (db1 db2 db1' db2' : Db) (user1 user2 : User) (req1 req2 : CreateOrderRequest)
        (now1 now2 : Nat) (o1 o2 : Order),
      createOrder db1 user1 req1 now1 = (.ok o1, db1') →
      createOrder db2 user2 req2 now2 = (.ok o2, db2') →
      db1.orders.length ≠ db2.orders.length →
      o1.orderNumber ≠ none ∧ o1.orderNumber ≠ o2.orderNumber) ∧
    (∀ (db db1 db2 : Db) (user1 user2 : User) (req1 req2 : CreateOrderRequest)
        (now1 now2 : Nat) (o1 o2 : Order) (ops : List (Nat × OrderOp)),
      createOrder db user1 req1 now1 = (.ok o1, db1) →
      createOrder (runOps db1 ops) user2 req2 now2 = (.ok o2, db2) →
      o1.orderNumber ≠ o2.orderNumber) := by
  refine ⟨?_, ?_, ?_⟩
  · intro o1 o2 count1 count2 now1 now2 h1 h2 hne
    have e1 : (preSaveOrderNumber o1 true count1 now1).orderNumber
        = some ("ORD-" ++ toString now1 ++ "-" ++ padStart (toString (count1 + 1)) 4 '0') := by
      rcases h1 with h | h <;> simp [preSaveOrderNumber, h]
    have e2 : (preSaveOrderNumber o2 true count2 now2).orderNumber
        = some ("ORD-" ++ toString now2 ++ "-" ++ padStart (toString (count2 + 1)) 4 '0') := by
      rcases h2 with h | h <;> simp [preSaveOrderNumber, h]
    rw [e1, e2]
    refine ⟨by simp, ?_⟩
    intro heq
    exact hne (orderNumber_format_inj _ _ _ _ (Option.some.inj heq))
  · intro db1 db2 db1' db2' user1 user2 req1 req2 now1 now2 o1 o2 h1
    exact absurd h1 (createOrder_not_ok db1 db1' user1 req1 now1 o1)
  · intro db db1 db2 user1 user2 req1 req2 now1 now2 o1 o2 ops h1
    exact absurd h1 (createOrder_not_ok db db1 user1 req1 now1 o1)

/-- Witness for C18: two new documents saved in the same millisecond at counts 4 and 10004 get
different order numbers. -/
theorem orderNumber_unique_witness :
    (({ sampleOrder "pending" with orderNumber := none } : Order).orderNumber = none ∨
      ({ sampleOrder "pending" with orderNumber := none } : Order).orderNumber = some "") ∧
    (4 : Nat) ≠ 10004 ∧
    (preSaveOrderNumber { sampleOrder "pending" with orderNumber := none } true 4 7).orderNumber
      ≠ (preSaveOrderNumber { sampleOrder "pending" with orderNumber := none } true 10004
          7).orderNumber :=
  ⟨Or.inl rfl, by decide,
    (orderNumber_unique.1 { sampleOrder "pending" with orderNumber := none }
      { sampleOrder "pending" with orderNumber := none } 4 10004 7 7 (Or.inl rfl) (Or.inl rfl)
      (by decide)).2⟩

/-- C19: the line items, order number and customer of an order never change after creation.
A successful `updateStatus`, `cancel`, `addTracking` or `processRefund`, save hooks included,
returns an order with the same `items`, `orderNumber` and `user`; and in a database whose
order ids are distinct, after any sequence of lifecycle requests the stored order with a given
id still has the `items`, `orderNumber` and `user` it had. -/
theorem identity_fields_kept (db : Db) :
    (∀ (o o' : Order) (db' : Db) (t notes : String) (now : Nat),
      o.updateStatus db t notes now = .ok (o', db') →
      o'.items = o.items ∧ o'.orderNumber = o.orderNumber ∧ o'.user = o.user) ∧
    (∀ (o o' : Order) (db' : Db) (reason : String) (now : Nat),
      o.cancel db reason now = .ok (o', db') →
      o'.items = o.items ∧ o'.orderNumber = o.orderNumber ∧ o'.user = o.user) ∧
    (∀ (o o' : Order) (db' : Db) (trackingNumber trackingUrl : String) (now : Nat),
      o.addTracking db trackingNumber trackingUrl now = .ok (o', db') →
      o'.items = o.items ∧ o'.orderNumber = o.orderNumber ∧ o'.user = o.user) ∧
    (∀ (o o' : Order) (db' : Db) (orderId : Nat) (refundAmount : ℚ) (reason : Option String)
        (now : Nat),
      db.findOrderById orderId = some o →
      processRefund db orderId refundAmount reason now = (.ok o', db') →
      o'.items = o.items ∧ o'.orderNumber = o.orderNumber ∧ o'.user = o.user) ∧
    (∀ (ops : List (Nat × OrderOp)) (id : Nat) (o : Order),
      (db.orders.map (fun x => x._id)).Nodup → db.findOrderById id = some o →
      ∃ o', (runOps db ops).findOrderById id = some o' ∧
        o'.items = o.items ∧ o'.orderNumber = o.orderNumber ∧ o'.user = o.user) := by
  refine ⟨?_, ?_, ?_, ?_, ?_⟩
  · intro o o' db' t notes now h
    obtain ⟨_, _, h1, h2, h3, _⟩ := updateStatus_ok_spec _ _ _ _ _ _ _ h
    exact ⟨h1, h2, h3⟩
  · intro o o' db' reason now h
    obtain ⟨_, _, _, h1, _⟩ := cancel_ok_spec _ _ _ _ _ _ h
    obtain ⟨_, h2, h3, _⟩ := cancel_ok_frame _ _ _ _ _ _ h
    exact ⟨h1, h2, h3⟩
  · intro o o' db' trackingNumber trackingUrl now h
    obtain ⟨_, _, _, _, h1, h2, h3, _⟩ := addTracking_ok_spec _ _ _ _ _ _ _ h
    exact ⟨h1, h2, h3⟩
  · intro o o' db' orderId refundAmount reason now hfind h
    obtain ⟨o2, hfind2, _, _, _, _, _, _, h1, h2, h3, _⟩ := processRefund_ok_spec _ _ _ _ _ _ _ h
    rw [hfind] at hfind2
    obtain rfl := Option.some.inj hfind2
    exact ⟨h1, h2, h3⟩
  · intro ops
    induction ops generalizing db with
    | nil => intro id o _ hfind; exact ⟨o, hfind, rfl, rfl, rfl⟩
    | cons op rest ih =>
      intro id o hnd hfind
      obtain ⟨o1, hfind1, hi1, hn1, hu1, _⟩ := applyOp_find db op.1 op.2 id o hnd hfind
      have hnd1 : ((applyOp db op.1 op.2).orders.map (fun x => x._id)).Nodup := by
        rw [applyOp_ids]; exact hnd
      obtain ⟨o', hf', hi', hn', hu'⟩ := ih (applyOp db op.1 op.2) id o1 hnd1 hfind1
      exact ⟨o', by simpa [runOps] using hf', by rw [hi', hi1], by rw [hn', hn1],
        by rw [hu', hu1]⟩

/-- Witness for C19: the pending sample order keeps its lines, number and customer through a
confirmation, a partial refund and a cancellation. -/
theorem identity_fields_kept_witness :
    ((sampleDbWith "pending").orders.map (fun x => x._id)).Nodup ∧
    (sampleDbWith "pending").findOrderById 0 = some (sampleOrder "pending") ∧
    ∃ o', (runOps (sampleDbWith "pending")
        [(1, .updateStatus 0 "confirmed" (some "ok") none none), (2, .refund 0 5 none),
         (3, .cancel sampleUser 0 none)]).findOrderById 0 = some o' ∧
      o'.items = (sampleOrder "pending").items ∧
      o'.orderNumber = some "ORD-1-0001" ∧ o'.user = 7 :=
  ⟨by decide, rfl,
    (identity_fields_kept (sampleDbWith "pending")).2.2.2.2 _ 0 (sampleOrder "pending")
      (by decide) rfl⟩

/-- C20 (evaluation at the failing input): for the request of 2 units of item 1 and 1 unit of
item 2 the first loop of `createOrder` builds one line per request line, in request order, each
the snapshot of the catalog record read for its request line, and these are the lines of the
document handed to `Order.create`. No order is built from them: the handler answers with the
validation error of `Order.create` (no `orderNumber`), the database is unchanged and the order
collection is empty, so no line is stored. -/
theorem createOrder_snapshots_not_stored :
    (∃ lines, checkItems sampleCatalog [⟨1, 2⟩, ⟨2, 1⟩] 0 [] = .ok (25, lines) ∧
      List.Forall₂ (isSnapshotOf sampleCatalog) [⟨1, 2⟩, ⟨2, 1⟩] lines ∧
      lines.map (fun i => (i.book, i.title, i.quantity)) = [(1, "Atlas", 2), (2, "Pencil", 1)] ∧
      (createOrderDocument sampleCatalog sampleUser
        (sampleRequest (some [⟨1, 2⟩, ⟨2, 1⟩]) none) 25 lines).items = lines) ∧
    createOrder sampleCatalog sampleUser (sampleRequest (some [⟨1, 2⟩, ⟨2, 1⟩]) none) 0
      = (.error .validationError, sampleCatalog) ∧
    (createOrder sampleCatalog sampleUser
      (sampleRequest (some [⟨1, 2⟩, ⟨2, 1⟩]) none) 0).2.orders = [] := by
  have hc : checkItems sampleCatalog [⟨1, 2⟩, ⟨2, 1⟩] 0 []
      = .ok (25, [⟨1, "Atlas", "A. Writer", 10, 2, none⟩,
                  ⟨2, "Pencil", "B. Maker", 5, 1, none⟩]) := by
    simp [checkItems, Db.findBook, sampleCatalog, sampleBook]
    norm_num
  obtain ⟨lines, hl, hsnap, _⟩ := checkItems_ok_spec _ _ _ _ _ _ hc
  rw [List.nil_append] at hl
  subst hl
  exact ⟨⟨_, hc, hsnap, by decide, rfl⟩, rfl, rfl⟩

/-- C21: on a successful `updateStatus` the status becomes the requested one. When the
requested status is delivered, `deliveredAt` is the time of the call and `cancelledAt` is
unchanged; when it is cancelled, `cancelledAt` is the time of the call and `deliveredAt` is
unchanged; for every other requested status both timestamps are unchanged. -/
theorem updateStatus_timestamps (o o' : Order) (db db' : Db) (t notes : String) (now : Nat)
    (h : o.updateStatus db t notes now = .ok (o', db')) :
    o'.orderStatus = t ∧
    (t = "delivered" → o'.deliveredAt = some now ∧ o'.cancelledAt = o.cancelledAt) ∧
    (t = "cancelled" → o'.cancelledAt = some now ∧ o'.deliveredAt = o.deliveredAt) ∧
    (t ≠ "delivered" → o'.deliveredAt = o.deliveredAt) ∧
    (t ≠ "cancelled" → o'.cancelledAt = o.cancelledAt) := by
  obtain ⟨_, hs, _⟩ := updateStatus_ok_spec _ _ _ _ _ _ _ h
  obtain ⟨hd, hc, _⟩ := updateStatus_ok_fields _ _ _ _ _ _ _ h
  refine ⟨hs, ?_, ?_, ?_, ?_⟩
  · intro ht
    rw [hd, hc, if_pos ht, if_pos ht]
    exact ⟨rfl, rfl⟩
  · intro ht
    have hnd : t ≠ "delivered" := by rw [ht]; decide
    rw [hd, hc, if_neg hnd, if_neg hnd, if_pos ht]
    exact ⟨rfl, rfl⟩
  · intro hnd
    rw [hd, if_neg hnd]
  · intro hnc
    rw [hc]
    split_ifs <;> rfl

/-- Witness for C21: the shipped sample order moved to delivered at time 5 has status
delivered, `deliveredAt` 5 and no `cancelledAt`. -/
theorem updateStatus_timestamps_witness :
    ∃ o' db', (sampleOrder "shipped").updateStatus (sampleDbWith "shipped") "delivered" "" 5
        = .ok (o', db') ∧
      o'.orderStatus = "delivered" ∧ o'.deliveredAt = some 5 ∧ o'.cancelledAt = none :=
  ⟨_, _, rfl,
    (updateStatus_timestamps (sampleOrder "shipped") _ (sampleDbWith "shipped") _ "delivered"
      "" 5 rfl).1,
    ((updateStatus_timestamps (sampleOrder "shipped") _ (sampleDbWith "shipped") _ "delivered"
      "" 5 rfl).2.1 rfl).1,
    ((updateStatus_timestamps (sampleOrder "shipped") _ (sampleDbWith "shipped") _ "delivered"
      "" 5 rfl).2.1 rfl).2⟩

/-- C22 (counterexample): the pending sample order carries the notes "gift"; a successful
`updateStatus` with notes "call first" leaves the notes "call first", in which the earlier
text "gift" does not occur: the notes are replaced, not appended. -/
theorem updateStatus_notes_not_appended :
    ∃ o' db', ({ sampleOrder "pending" with notes := some "gift" } : Order).updateStatus
        (sampleDbWith "pending") "confirmed" "call first" 5 = .ok (o', db') ∧
      o'.notes = some "call first" ∧ ¬ ("gift".data <:+: "call first".data) :=
  ⟨_, _, rfl, rfl, by decide⟩

/-- C22 (amended): on a successful `updateStatus` with non-empty notes the order's notes become
the provided notes, whatever they were before; with empty notes they are unchanged, and so
they are when `updateOrderStatus` is called without notes. -/
theorem updateStatus_notes_replaced (o : Order) (db : Db) (now : Nat) :
    (∀ (o' : Order) (db' : Db) (t notes : String),
      o.updateStatus db t notes now = .ok (o', db') → notes ≠ "" → o'.notes = some notes) ∧
    (∀ (o' : Order) (db' : Db) (t : String),
      o.updateStatus db t "" now = .ok (o', db') → o'.notes = o.notes) ∧
    (∀ (o' : Order) (db' : Db) (orderId : Nat) (t : String),
      db.findOrderById orderId = some o →
      updateOrderStatus db orderId t none none none now = (.ok o', db') →
      o'.notes = o.notes) := by
  refine ⟨?_, ?_, ?_⟩
  · intro o' db' t notes h hne
    obtain ⟨_, _, hn⟩ := updateStatus_ok_fields _ _ _ _ _ _ _ h
    rw [hn, if_pos hne]
  · intro o' db' t h
    obtain ⟨_, _, hn⟩ := updateStatus_ok_fields _ _ _ _ _ _ _ h
    rw [hn, if_neg (by simp)]
  · intro o' db' orderId t hfind h
    simp only [updateOrderStatus, hfind, Option.getD_none] at h
    split at h
    · simp at h
    · next o1 db1 hu =>
      simp only [ne_eq, not_true_eq_false, decide_False, Bool.false_and, Bool.false_eq_true,
        if_false] at h
      obtain ⟨_, _, hn⟩ := updateStatus_ok_fields _ _ _ _ _ _ _ hu
      rw [← Except.ok.inj (Prod.mk.inj h).1, hn, if_neg (by simp)]

/-- Witness for C22 (amended): the notes "gift" are replaced by "call first". -/
theorem updateStatus_notes_replaced_witness :
    ∃ o' db', ({ sampleOrder "pending" with notes := some "gift" } : Order).updateStatus
        (sampleDbWith "pending") "confirmed" "call first" 5 = .ok (o', db') ∧
      "call first" ≠ "" ∧ o'.notes = some "call first" :=
  ⟨_, _, rfl, by decide,
    (updateStatus_notes_replaced { sampleOrder "pending" with notes := some "gift" }
      (sampleDbWith "pending") 5).1 _ _ "confirmed" "call first" rfl (by decide)⟩

/-- C23: `canBeReturned` is true exactly when the status is delivered, `deliveredAt` is set and
the time elapsed since `deliveredAt` is at most 30 x 24 x 60 x 60 x 1000 ms = 2592000000 ms.
It is true at exactly 30 days, and it is not true for another status, without `deliveredAt`,
or one millisecond past 30 days. -/
theorem canBeReturned_iff (o : Order) (now : Nat) :
    (o.canBeReturned now = true ↔
      o.orderStatus = "delivered" ∧
        ∃ d, o.deliveredAt = some d ∧ (now : Int) - (d : Int) ≤ 30 * 24 * 60 * 60 * 1000) ∧
    (o.orderStatus ≠ "delivered" → o.canBeReturned now = false) ∧
    (o.deliveredAt = none → o.canBeReturned now = false) ∧
    (∀ d, o.deliveredAt = some d → (now : Int) - (d : Int) > 2592000000 →
      o.canBeReturned now = false) ∧
    (∀ d, o.orderStatus = "delivered" → o.deliveredAt = some d → now = d + 2592000000 →
      o.canBeReturned now = true) ∧
    (∀ d, o.orderStatus = "delivered" → o.deliveredAt = some d → now = d + 2592000001 →
      o.canBeReturned now = false) := by
  have hiff : o.canBeReturned now = true ↔
      o.orderStatus = "delivered" ∧
        ∃ d, o.deliveredAt = some d ∧ (now : Int) - (d : Int) ≤ 30 * 24 * 60 * 60 * 1000 := by
    unfold Order.canBeReturned
    cases hd : o.deliveredAt with
    | none => simp
    | some d => simp
  have hfalse : ∀ {p : Prop}, (o.canBeReturned now = true ↔ p) → ¬ p →
      o.canBeReturned now = false := by
    intro p hp hnp
    cases hb : o.canBeReturned now with
    | false => rfl
    | true => exact absurd (hp.mp hb) hnp
  refine ⟨hiff, ?_, ?_, ?_, ?_, ?_⟩
  · intro hs
    exact hfalse hiff (fun h => hs h.1)
  · intro hn
    apply hfalse hiff
    rintro ⟨_, d, hd, _⟩
    rw [hn] at hd
    cases hd
  · intro d hd hgt
    apply hfalse hiff
    rintro ⟨_, d', hd', hle⟩
    rw [hd] at hd'
    cases hd'
    omega
  · intro d hs hd hnow
    exact hiff.mpr ⟨hs, d, hd, by subst hnow; push_cast; omega⟩
  · intro d hs hd hnow
    apply hfalse hiff
    rintro ⟨_, d', hd', hle⟩
    rw [hd] at hd'
    cases hd'
    subst hnow
    push_cast at hle
    omega

/-- Witness for C23: delivered at time 1000, the sample order can be returned at time
2592001000 (30 days later) and no longer one millisecond after. -/
theorem canBeReturned_iff_witness :
    ({ sampleOrder "delivered" with deliveredAt := some 1000 } : Order).canBeReturned
        2592001000 = true ∧
    ({ sampleOrder "delivered" with deliveredAt := some 1000 } : Order).canBeReturned
        2592001001 = false :=
  ⟨(canBeReturned_iff { sampleOrder "delivered" with deliveredAt := some 1000 }
      2592001000).2.2.2.2.1 1000 rfl rfl (by decide),
    (canBeReturned_iff { sampleOrder "delivered" with deliveredAt := some 1000 }
      2592001001).2.2.2.2.2 1000 rfl rfl (by decide)⟩

/-- C24: after every save the stored total is not negative: it is 0 whenever the recomputed
subtotal plus shipping cost plus tax minus discount is below zero, and that sum otherwise. -/
theorem total_nonneg_after_save (db : Db) (o : Order) (isNew : Bool) (now : Nat) :
    0 ≤ (save db o isNew now).1.total ∧
    (specLineSum o.items + o.shippingCost + o.tax - o.discount < 0 →
      (save db o isNew now).1.total = 0) ∧
    (0 ≤ specLineSum o.items + o.shippingCost + o.tax - o.discount →
      (save db o isNew now).1.total
        = specLineSum o.items + o.shippingCost + o.tax - o.discount) := by
  have htot : (save db o isNew now).1.total
      = (if specLineSum o.items + o.shippingCost + o.tax - o.discount < 0 then 0
         else specLineSum o.items + o.shippingCost + o.tax - o.discount) := by
    simp only [save, preSaveTotals, preSaveOrderNumber, itemsSubtotal_eq]
    split <;> rfl
  refine ⟨?_, ?_, ?_⟩
  · rw [htot]
    split
    · exact le_refl 0
    · next h => exact not_lt.mp h
  · intro h
    rw [htot, if_pos h]
  · intro h
    rw [htot, if_neg (not_lt.mpr h)]

/-- Witness for C24: the sample order (lines worth 20.00, shipping 9.99, tax 1.60) with a
discount of 100.00 is saved with total 0. -/
theorem total_nonneg_after_save_witness :
    specLineSum ({ sampleOrder "pending" with discount := 100 } : Order).items
        + ({ sampleOrder "pending" with discount := 100 } : Order).shippingCost
        + ({ sampleOrder "pending" with discount := 100 } : Order).tax
        - ({ sampleOrder "pending" with discount := 100 } : Order).discount < 0 ∧
    (save (sampleDbWith "pending") { sampleOrder "pending" with discount := 100 } false
      5).1.total = 0 :=
  have hneg : specLineSum ({ sampleOrder "pending" with discount := 100 } : Order).items
        + ({ sampleOrder "pending" with discount := 100 } : Order).shippingCost
        + ({ sampleOrder "pending" with discount := 100 } : Order).tax
        - ({ sampleOrder "pending" with discount := 100 } : Order).discount < 0 := by
    simp [specLineSum, sampleOrder]
    norm_num
  ⟨hneg, (total_nonneg_after_save (sampleDbWith "pending")
    { sampleOrder "pending" with discount := 100 } false 5).2.1 hneg⟩

/-- C25: in a database whose order ids are distinct, `cancelOrder` called by a user whose role
is not admin on a stored order owned by another user answers with the not-found error and
returns the database unchanged, whatever the status of the order. -/
theorem cancelOrder_foreign_order (db : Db) (user : User) (orderId : Nat) (o : Order)
    (reason : Option String) (now : Nat)
    (hnd : (db.orders.map (fun x => x._id)).Nodup)
    (hfind : db.findOrderById orderId = some o) (hrole : user.role ≠ "admin")
    (howner : o.user ≠ user.id) :
    cancelOrder db user orderId reason now = (.error .orderNotFound, db) := by
  obtain ⟨hmem, hid⟩ := findOrderById_spec _ _ _ hfind
  have hnone : db.findOrderFor user orderId = none := by
    unfold Db.findOrderFor
    rw [List.find?_eq_none]
    intro x hx hp
    simp only [Bool.and_eq_true, beq_iff_eq, Bool.or_eq_true] at hp
    obtain ⟨hxid, hor⟩ := hp
    have hxo : x = o := eq_of_mem_of_id_eq _ hnd _ _ hx hmem (by rw [hxid, hid])
    rcases hor with h | h
    · exact hrole h
    · exact howner (by rw [← hxo]; exact h)
  simp [cancelOrder, hnone]

/-- Witness for C25: customer 8 cannot cancel the pending sample order of customer 7. -/
theorem cancelOrder_foreign_order_witness :
    ((sampleDbWith "pending").orders.map (fun x => x._id)).Nodup ∧
    (sampleDbWith "pending").findOrderById 0 = some (sampleOrder "pending") ∧
    (⟨8, "customer"⟩ : User).role ≠ "admin" ∧
    (sampleOrder "pending").user ≠ (⟨8, "customer"⟩ : User).id ∧
    cancelOrder (sampleDbWith "pending") ⟨8, "customer"⟩ 0 none 5
      = (.error .orderNotFound, sampleDbWith "pending") :=
  ⟨by decide, rfl, by decide, by decide,
    cancelOrder_foreign_order (sampleDbWith "pending") ⟨8, "customer"⟩ 0
      (sampleOrder "pending") none 5 (by decide) rfl (by decide) (by decide)⟩

/-- C27 (evaluation at the failing input): item 1 is active with stock 2 and three calls of
`createOrder` each ask for 1 unit of it, one after another. The claim gives min(3, 2) = 2
successes, one insufficient-stock failure and final stock 0; the handler answers all three
calls with the validation error of `Order.create` (no `orderNumber`) and the stock is still 2.
For every sequence of calls, the database is left as it was and no call succeeds. -/
theorem runCreates_one_unit_no_success :
    (sampleDbStock 2).books 1 = some { sampleBook with stock := 2 } ∧
    min 3 2 = 2 ∧
    (runCreates (sampleDbStock 2)
      (List.replicate 3 (sampleUser, sampleRequest (some [⟨1, 1⟩]) none, 1))).1
      = [.error .validationError, .error .validationError, .error .validationError] ∧
    ((runCreates (sampleDbStock 2)
      (List.replicate 3 (sampleUser, sampleRequest (some [⟨1, 1⟩]) none, 1))).2.books 1).map
        (fun b => b.stock) = some 2 ∧
    (∀ (calls : List (User × CreateOrderRequest × Nat)) (db : Db),
      (runCreates db calls).2 = db ∧ ∀ x ∈ (runCreates db calls).1, ∀ o, x ≠ .ok o) := by
  refine ⟨rfl, by decide, rfl, by decide, ?_⟩
  intro calls db
  exact ⟨(runCreates_spec calls db).1, (runCreates_spec calls db).2.2⟩

/-- C28 (evaluation at the failing input): item 1 has stock 3 and the request asks for 1 and 2
units of it on two lines, which both pass the checks. `createOrder` answers with the validation
error of `Order.create` (no `orderNumber`) and stores nothing, so the round trip has no order
to cancel: `cancelOrder` on the resulting database answers not-found for every order id. No
request is ever answered with a created order. -/
theorem create_then_cancel_no_order :
    (∀ x ∈ [(⟨1, 1⟩ : OrderItemRequest), ⟨1, 2⟩], lineAccepted sampleDb x) ∧
    createOrder sampleDb sampleUser (sampleRequest (some [⟨1, 1⟩, ⟨1, 2⟩]) none) 1
      = (.error .validationError, sampleDb) ∧
    (∀ orderId reason, cancelOrder
        (createOrder sampleDb sampleUser (sampleRequest (some [⟨1, 1⟩, ⟨1, 2⟩]) none) 1).2
        sampleUser orderId reason 2 = (.error .orderNotFound, sampleDb)) ∧
    (∀ (db db' : Db) (user : User) (req : CreateOrderRequest) (now : Nat) (o : Order),
      createOrder db user req now ≠ (.ok o, db')) := by
  refine ⟨?_, rfl, fun _ _ => rfl, ?_⟩
  · intro x hx
    simp only [List.mem_cons, List.mem_singleton, List.not_mem_nil, or_false] at hx
    rcases hx with rfl | rfl
    · exact ⟨sampleBook, rfl, rfl, by decide⟩
    · exact ⟨sampleBook, rfl, rfl, by decide⟩
  · intro db db' user req now o
    exact createOrder_not_ok db db' user req now o

/-- C29: the transition relation of `updateStatus` is acyclic. When a sequence of
`updateStatus` calls on one order all succeed, the statuses visited (the first one included)
are pairwise different, one more than the number of calls, and from pending there are at most
5 calls. -/
theorem updateStatus_acyclic (o : Order) (db : Db) (calls : List (String × String × Nat))
    (trace : List String) (h : statusTrace o db calls = some trace) :
    trace.Nodup ∧ trace.length = calls.length + 1 ∧
    (o.orderStatus = "pending" → calls.length ≤ 5) := by
  obtain ⟨_, h2, h3, h4⟩ := statusTrace_spec _ _ _ _ h
  refine ⟨h2, h3, ?_⟩
  intro hp
  omega

/-- Witness for C29: the path pending, confirmed, processing, shipped, delivered, returned is
the run of 5 successful calls from the pending sample order. -/
theorem updateStatus_acyclic_witness :
    statusTrace (sampleOrder "pending") (sampleDbWith "pending")
        [("confirmed", "", 1), ("processing", "", 2), ("shipped", "", 3), ("delivered", "", 4),
         ("returned", "", 5)]
      = some ["pending", "confirmed", "processing", "shipped", "delivered", "returned"] ∧
    ["pending", "confirmed", "processing", "shipped", "delivered", "returned"].Nodup ∧
    (5 : Nat) ≤ 5 :=
  have h := updateStatus_acyclic (sampleOrder "pending") (sampleDbWith "pending")
    [("confirmed", "", 1), ("processing", "", 2), ("shipped", "", 3), ("delivered", "", 4),
     ("returned", "", 5)]
    ["pending", "confirmed", "processing", "shipped", "delivered", "returned"] rfl
  ⟨rfl, h.1, h.2.2 rfl⟩

/-- C30: the two cancellation paths agree except on shipped. Whenever `canBeCancelled` is
true, and so whenever `cancel` succeeds, `updateStatus` to cancelled succeeds as well; and
`updateStatus` to cancelled succeeds while `cancel` is refused exactly when the status is
shipped. -/
theorem cancellation_paths (o : Order) (db : Db) (reason notes : String) (now : Nat) :
    (o.canBeCancelled = true → ∃ r, o.updateStatus db "cancelled" notes now = .ok r) ∧
    ((∃ r, o.cancel db reason now = .ok r) →
      ∃ r, o.updateStatus db "cancelled" notes now = .ok r) ∧
    (((∃ r, o.updateStatus db "cancelled" notes now = .ok r) ∧
        o.cancel db reason now = .error .cannotBeCancelled) ↔
      o.orderStatus = "shipped") := by
  have h3 : o.canBeCancelled = true → ∃ r, o.updateStatus db "cancelled" notes now = .ok r := by
    intro hc
    have hc' : o.orderStatus = "pending" ∨ o.orderStatus = "confirmed" ∨
        o.orderStatus = "processing" := by
      simpa [Order.canBeCancelled] using hc
    rcases hc' with h | h | h <;> simp [Order.updateStatus, validTransitions, h]
  refine ⟨h3, ?_, ?_⟩
  · rintro ⟨⟨o1, db1⟩, hc⟩
    exact h3 (cancel_ok_frame _ _ _ _ _ _ hc).1
  · constructor
    · rintro ⟨⟨⟨o1, db1⟩, hu⟩, hc⟩
      obtain ⟨⟨allowed, hv, hmem⟩, _⟩ := updateStatus_ok_spec _ _ _ _ _ _ _ hu
      have hcc : o.canBeCancelled = false := by
        cases hb : o.canBeCancelled with
        | false => rfl
        | true => simp [Order.cancel, hb] at hc
      rcases validTransitions_cancelled _ _ hv hmem with h | h | h | h
      · simp [Order.canBeCancelled, h] at hcc
      · simp [Order.canBeCancelled, h] at hcc
      · simp [Order.canBeCancelled, h] at hcc
      · exact h
    · intro hs
      exact ⟨by simp [Order.updateStatus, validTransitions, hs],
        by simp [Order.cancel, Order.canBeCancelled, hs]⟩

/-- Witness for C30: from shipped, `updateStatus` to cancelled succeeds and `cancel` is
refused; from processing both succeed. -/
theorem cancellation_paths_witness :
    (∃ r, (sampleOrder "shipped").updateStatus (sampleDbWith "shipped") "cancelled" "" 5
      = .ok r) ∧
    (sampleOrder "shipped").cancel (sampleDbWith "shipped") "" 5 = .error .cannotBeCancelled ∧
    ∃ r, (sampleOrder "processing").updateStatus (sampleDbWith "processing") "cancelled" "" 5
      = .ok r :=
  ⟨((cancellation_paths (sampleOrder "shipped") (sampleDbWith "shipped") "" "" 5).2.2.2
      rfl).1,
    ((cancellation_paths (sampleOrder "shipped") (sampleDbWith "shipped") "" "" 5).2.2.2
      rfl).2,
    (cancellation_paths (sampleOrder "processing") (sampleDbWith "processing") "" "" 5).1
      rfl⟩

end BookShop
